import Mathlib

/-!
# kube-auth: token review and access review webhook

A shallow embedding of the request path (`authenticate.go`, `authorize.go`,
`handlers.go`) and of the reload path (`server.go`) of the service, followed by
the properties proved about them.

Conventions of the embedding:

* a Go `error` is its message, and `nil` is `none`;
* a Go pointer or interface value that may be `nil` is an `Option`;
* a call on a `nil` interface, which makes the Go runtime panic, is the
  outcome `panicked`;
* the Kubernetes wire types keep the fields the service reads or writes;
* the reader/writer lock of `service` is not represented: every function below
  is one atomic step.
-/

namespace KubeAuth

set_option maxRecDepth 100000

/-! ## Wire types -/

/-- A Go `error`, represented by its message. -/
abbrev GoError := String

/-- The `unversioned.TypeMeta` header of a review. -/
structure TypeMeta where
  Kind : String := ""
  APIVersion : String := ""
  deriving DecidableEq, Repr

/-- The identity a token maps to, as `user.Info` exposes it through `GetName`,
`GetUID` and `GetGroups` (the concrete type is `user.DefaultInfo`). -/
structure DefaultInfo where
  Name : String := ""
  UID : String := ""
  Groups : List String := []
  deriving DecidableEq, Repr

/-- The `v1beta1.UserInfo` of a token review status. -/
structure UserInfo where
  Username : String := ""
  UID : String := ""
  Groups : List String := []
  deriving DecidableEq, Repr

/-- The `v1beta1.TokenReviewSpec`. -/
structure TokenReviewSpec where
  Token : String := ""
  deriving DecidableEq, Repr

/-- The `v1beta1.TokenReviewStatus`. -/
structure TokenReviewStatus where
  Authenticated : Bool := false
  User : UserInfo := {}
  Error : String := ""
  deriving DecidableEq, Repr

/-- The `v1beta1.TokenReview`, request and response alike. -/
structure TokenReview where
  TypeMeta : TypeMeta := {}
  Spec : TokenReviewSpec := {}
  Status : TokenReviewStatus := {}
  deriving DecidableEq, Repr

/-- The `v1beta1.ResourceAttributes` of an access review. -/
structure ResourceAttributes where
  Namespace : String := ""
  Verb : String := ""
  Group : String := ""
  Version : String := ""
  Resource : String := ""
  Subresource : String := ""
  Name : String := ""
  deriving DecidableEq, Repr

/-- The `v1beta1.NonResourceAttributes` of an access review. -/
structure NonResourceAttributes where
  Path : String := ""
  Verb : String := ""
  deriving DecidableEq, Repr

/-- The `v1beta1.SubjectAccessReviewSpec`; the two attribute fields are
pointers in Go. -/
structure SubjectAccessReviewSpec where
  ResourceAttributes : Option ResourceAttributes := none
  NonResourceAttributes : Option NonResourceAttributes := none
  User : String := ""
  Groups : List String := []
  deriving DecidableEq, Repr

/-- The `v1beta1.SubjectAccessReviewStatus`. -/
structure SubjectAccessReviewStatus where
  Allowed : Bool := false
  Reason : String := ""
  deriving DecidableEq, Repr

/-- The `v1beta1.SubjectAccessReview`, request and response alike. -/
structure SubjectAccessReview where
  TypeMeta : TypeMeta := {}
  Spec : SubjectAccessReviewSpec := {}
  Status : SubjectAccessReviewStatus := {}
  deriving DecidableEq, Repr

/-- The `authorizer.AttributesRecord` handed to the authorization provider. -/
structure AttributesRecord where
  User : DefaultInfo := {}
  Verb : String := ""
  Namespace : String := ""
  APIGroup : String := ""
  APIVersion : String := ""
  Resource : String := ""
  Subresource : String := ""
  Name : String := ""
  ResourceRequest : Bool := false
  Path : String := ""
  deriving DecidableEq, Repr

/-! ## Providers and service state -/

/-- The authentication provider held in `service.tokens`: the result of
`AuthenticateToken` is the triple `(user, found, err)`. -/
structure authentication where
  AuthenticateToken : String → Option DefaultInfo × Bool × Option GoError

/-- The authorization provider held in `service.authz`: the result of
`Authorize` is the triple `(allowed, reason, err)`. -/
structure authorization where
  Authorize : AttributesRecord → Bool × String × Option GoError

/-- The content digest `[16]byte`, read as a 128-bit number. -/
abbrev Digest := Fin (2 ^ 128)

/-- The fields of `options` that `server.go` reads. -/
structure options where
  listen : String := ""
  tokenFile : String := ""
  authFile : String := ""
  tlsCert : String := ""
  tlsKey : String := ""
  tlsCA : String := ""
  logging : Bool := false
  verbose : Bool := false
  deriving DecidableEq, Repr

/-- The `service` struct: configuration, the two providers (`nil` until loaded)
and the digest map `files`. -/
structure service where
  cfg : options
  tokens : Option authentication := none
  authz : Option authorization := none
  files : String → Option Digest := fun _ => none

/-- What a Go call yields: the pair it returns, or a runtime panic. -/
inductive Returns (α : Type) where
  | returned (response : α) (err : Option GoError)
  | panicked
  deriving DecidableEq, Repr

/-! ## authenticate.go -/

/-- The method `service.authentication`. -/
def service.authentication (s : service) (review : TokenReview) : Returns TokenReview :=
  let response : TokenReview :=
    { TypeMeta := { APIVersion := "authentication.k8s.io/v1beta1", Kind := "TokenReview" } }
  match s.tokens with
  | none => .panicked
  | some tokens =>
    match tokens.AuthenticateToken review.Spec.Token with
    | (_, _, some err) => .returned response (some err)
    | (_, false, none) =>
      .returned { response with Status := { Authenticated := false, Error := "token not found" } }
        none
    | (none, true, none) => .panicked
    | (some user, true, none) =>
      .returned
        { response with
          Status :=
            { Authenticated := true
              User := { UID := user.UID, Username := user.Name, Groups := user.Groups } } }
        none

/-! ## authorize.go -/

/-- The record `request` that `service.authorize` builds before it calls the
provider (lines 43 to 63 of `authorize.go`), assignment by assignment. -/
def service.authorizeRequest (review : SubjectAccessReview) : AttributesRecord :=
  let request : AttributesRecord :=
    { User := { Name := review.Spec.User, Groups := review.Spec.Groups } }
  let request :=
    match review.Spec.ResourceAttributes with
    | some ra =>
      { request with
        Verb := ra.Verb
        Namespace := ra.Namespace
        APIGroup := ra.Group
        APIVersion := ra.Version
        Resource := ra.Resource
        Subresource := ra.Subresource
        Name := ra.Name }
    | none => request
  let request :=
    match review.Spec.NonResourceAttributes with
    | some nra => { request with Path := nra.Path, Verb := nra.Verb }
    | none => request
  { request with ResourceRequest := review.Spec.ResourceAttributes.isSome }

/-- The method `service.authorize`. -/
def service.authorize (s : service) (review : SubjectAccessReview) :
    Returns SubjectAccessReview :=
  let response : SubjectAccessReview :=
    { TypeMeta := { Kind := "SubjectAccessReview", APIVersion := "authorization.k8s.io/v1beta1" } }
  let request := service.authorizeRequest review
  match s.authz with
  | none => .panicked
  | some authz =>
    match authz.Authorize request with
    | (_, _, some err) => .returned response (some err)
    | (false, reason, none) =>
      .returned { response with Status := { Allowed := false, Reason := reason } } none
    | (true, _, none) =>
      .returned { response with Status := { Allowed := true } } none

/-! ## handlers.go -/

/-- The status code `http.StatusOK`. -/
def http.StatusOK : Nat := 200

/-- The status code `http.StatusBadRequest`. -/
def http.StatusBadRequest : Nat := 400

/-- The status code `http.StatusNotFound`. -/
def http.StatusNotFound : Nat := 404

/-- The status code `http.StatusInternalServerError`. -/
def http.StatusInternalServerError : Nat := 500

/-- What the handler reads from `gin.Context`: the `kind` path parameter and
the raw request body. -/
structure Context where
  kind : String
  body : String
  deriving DecidableEq, Repr

/-- The decoder `cx.BindJSON` at the two review types: the decoded review, or
the decoding error. -/
structure Binding where
  TokenReview : String → Except GoError TokenReview
  SubjectAccessReview : String → Except GoError SubjectAccessReview

/-- The body written to the client: nothing (`AbortWithStatus`) or the JSON
rendering of a review (`cx.JSON`). -/
inductive Payload where
  | empty
  | tokenReview (result : TokenReview)
  | subjectAccessReview (result : SubjectAccessReview)
  deriving DecidableEq, Repr

/-- The outcome of a handler: the status and body it wrote, or a panic that
leaves the handler. -/
inductive Reply where
  | responded (status : Nat) (body : Payload)
  | panicked
  deriving DecidableEq, Repr

/-- The handler `service.authorizeHandler` of `POST /authorize/:kind`. -/
def service.authorizeHandler (bind : Binding) (r : service) (cx : Context) : Reply :=
  let kind := cx.kind
  if kind = "token" then
    match bind.TokenReview cx.body with
    | .error _ => .responded http.StatusBadRequest .empty
    | .ok review =>
      match r.authentication review with
      | .panicked => .panicked
      | .returned _ (some _) => .responded http.StatusInternalServerError .empty
      | .returned result none => .responded http.StatusOK (.tokenReview result)
  else if kind = "policy" then
    match bind.SubjectAccessReview cx.body with
    | .error _ => .responded http.StatusBadRequest .empty
    | .ok review =>
      match r.authorize review with
      | .panicked => .panicked
      | .returned _ (some _) => .responded http.StatusInternalServerError .empty
      | .returned result none => .responded http.StatusOK (.subjectAccessReview result)
  else
    .responded http.StatusNotFound .empty

/-! ## server.go -/

/-! ### crypto/md5

The digest of RFC 1321, which `md5.Sum` of the Go standard library computes,
on 32-bit words kept as natural numbers reduced modulo `2 ^ 32`. -/

/-- The per-round left rotations. -/
def md5.shifts : List Nat :=
  [7, 12, 17, 22, 7, 12, 17, 22, 7, 12, 17, 22, 7, 12, 17, 22,
   5, 9, 14, 20, 5, 9, 14, 20, 5, 9, 14, 20, 5, 9, 14, 20,
   4, 11, 16, 23, 4, 11, 16, 23, 4, 11, 16, 23, 4, 11, 16, 23,
   6, 10, 15, 21, 6, 10, 15, 21, 6, 10, 15, 21, 6, 10, 15, 21]

/-- The per-round additive constants. -/
def md5.table : List Nat :=
  [0xd76aa478, 0xe8c7b756, 0x242070db, 0xc1bdceee, 0xf57c0faf, 0x4787c62a,
   0xa8304613, 0xfd469501, 0x698098d8, 0x8b44f7af, 0xffff5bb1, 0x895cd7be,
   0x6b901122, 0xfd987193, 0xa679438e, 0x49b40821, 0xf61e2562, 0xc040b340,
   0x265e5a51, 0xe9b6c7aa, 0xd62f105d, 0x02441453, 0xd8a1e681, 0xe7d3fbc8,
   0x21e1cde6, 0xc33707d6, 0xf4d50d87, 0x455a14ed, 0xa9e3e905, 0xfcefa3f8,
   0x676f02d9, 0x8d2a4c8a, 0xfffa3942, 0x8771f681, 0x6d9d6122, 0xfde5380c,
   0xa4beea44, 0x4bdecfa9, 0xf6bb4b60, 0xbebfbc70, 0x289b7ec6, 0xeaa127fa,
   0xd4ef3085, 0x04881d05, 0xd9d4d039, 0xe6db99e5, 0x1fa27cf8, 0xc4ac5665,
   0xf4292244, 0x432aff97, 0xab9423a7, 0xfc93a039, 0x655b59c3, 0x8f0ccc92,
   0xffeff47d, 0x85845dd1, 0x6fa87e4f, 0xfe2ce6e0, 0xa3014314, 0x4e0811a1,
   0xf7537e82, 0xbd3af235, 0x2ad7d2bb, 0xeb86d391]

/-- Rotate a 32-bit word left by `c` bits. -/
def md5.rotl (x c : Nat) : Nat := ((x <<< c) ||| (x >>> (32 - c))) % 2 ^ 32

/-- The bitwise complement of a 32-bit word. -/
def md5.not32 (x : Nat) : Nat := x ^^^ 0xffffffff

/-- The four chaining words of the digest. -/
structure md5.Words where
  a : Nat
  b : Nat
  c : Nat
  d : Nat

/-- One of the 64 operations on a block with message words `m`. -/
def md5.round (m : List Nat) (st : md5.Words) (i : Nat) : md5.Words :=
  let f :=
    if i < 16 then (st.b &&& st.c) ||| (md5.not32 st.b &&& st.d)
    else if i < 32 then (st.d &&& st.b) ||| (md5.not32 st.d &&& st.c)
    else if i < 48 then st.b ^^^ st.c ^^^ st.d
    else st.c ^^^ (st.b ||| md5.not32 st.d)
  let g :=
    if i < 16 then i
    else if i < 32 then (5 * i + 1) % 16
    else if i < 48 then (3 * i + 5) % 16
    else (7 * i) % 16
  let f := (f + st.a + md5.table.getD i 0 + m.getD g 0) % 2 ^ 32
  { a := st.d, d := st.c, c := st.b, b := (st.b + md5.rotl f (md5.shifts.getD i 0)) % 2 ^ 32 }

/-- The little-endian 32-bit word at the head of a byte list. -/
def md5.word (bs : List Nat) : Nat :=
  bs.getD 0 0 + 256 * bs.getD 1 0 + 65536 * bs.getD 2 0 + 16777216 * bs.getD 3 0

/-- The first `n` little-endian words of a byte list. -/
def md5.words : Nat → List Nat → List Nat
  | 0, _ => []
  | n + 1, bs => md5.word bs :: md5.words n (bs.drop 4)

/-- The compression of one 64-byte block into the chaining words. -/
def md5.block (st : md5.Words) (chunk : List Nat) : md5.Words :=
  let m := md5.words 16 chunk
  let r := (List.range 64).foldl (md5.round m) st
  { a := (st.a + r.a) % 2 ^ 32, b := (st.b + r.b) % 2 ^ 32
    c := (st.c + r.c) % 2 ^ 32, d := (st.d + r.d) % 2 ^ 32 }

/-- The compression of `n` consecutive blocks. -/
def md5.blocks : Nat → md5.Words → List Nat → md5.Words
  | 0, st, _ => st
  | n + 1, st, bs => md5.blocks n (md5.block st (bs.take 64)) (bs.drop 64)

/-- The `k` low bytes of `n`, least significant first. -/
def md5.littleEndian (n : Nat) : Nat → List Nat
  | 0 => []
  | k + 1 => n % 256 :: md5.littleEndian (n / 256) k

/-- The message followed by the padding: the byte `0x80`, zeros up to 56
modulo 64, and the bit length on 64 bits. -/
def md5.pad (bs : List Nat) : List Nat :=
  let l := bs.length
  bs ++ [0x80] ++ List.replicate ((119 - l % 64) % 64) 0 ++ md5.littleEndian (8 * l % 2 ^ 64) 8

/-- The 16 bytes of the digest, read as one number, first byte most
significant (so that it prints as the usual hexadecimal digest). -/
def md5.sumNat (bs : List Nat) : Nat :=
  let p := md5.pad bs
  let r := md5.blocks (p.length / 64) ⟨0x67452301, 0xefcdab89, 0x98badcfe, 0x10325476⟩ p
  (md5.littleEndian r.a 4 ++ md5.littleEndian r.b 4 ++ md5.littleEndian r.c 4 ++
    md5.littleEndian r.d 4).foldl (fun acc b => acc * 256 + b) 0

/-- The function `md5.Sum`. -/
def md5.Sum (content : List UInt8) : Digest :=
  ⟨md5.sumNat (content.map UInt8.toNat) % 2 ^ 128, Nat.mod_lt _ (by decide)⟩

/-- The file system and the library functions `server.go` calls, as they answer
during one call of the service: `ioutil.ReadFile`, `tokenfile.NewCSV`,
`abac.NewFromFile`, `path.Dir`, `fsnotify.NewWatcher` and `watcher.Add`. -/
structure Env where
  ReadFile : String → Except GoError (List UInt8)
  NewCSV : String → Except GoError authentication
  NewFromFile : String → Except GoError authorization
  Dir : String → String
  NewWatcher : Option GoError
  Add : String → Option GoError

/-- The calls of interest the service makes, in the order it makes them. -/
inductive Call where
  | computeSum (path : String)
  | loadTokensFile (filename : String)
  | loadAuthorizationFile (filename : String)
  deriving DecidableEq, Repr

/-- The function `loadTokensFile`. -/
def loadTokensFile (env : Env) (filename : String) : Except GoError authentication :=
  match env.NewCSV filename with
  | .error err => .error err
  | .ok t => .ok t

/-- The function `loadAuthorizationFile`. -/
def loadAuthorizationFile (env : Env) (filename : String) : Except GoError authorization :=
  match env.NewFromFile filename with
  | .error err => .error err
  | .ok t => .ok t

/-- The function `computeSum`: the md5 sum of a file. -/
def computeSum (env : Env) (path : String) : Except GoError Digest :=
  match env.ReadFile path with
  | .error err => .error err
  | .ok content => .ok (md5.Sum content)

/-- The service after a call, the error the call returned and the calls it
made. -/
structure Step where
  state : service
  err : Option GoError
  calls : List Call

/-- The method `service.processFileEvent`. -/
def service.processFileEvent (env : Env) (s : service) (filename : String) : Step :=
  match s.files filename with
  | none => { state := s, err := none, calls := [] }
  | some sum =>
    match computeSum env filename with
    | .error err => { state := s, err := some err, calls := [.computeSum filename] }
    | .ok nsum =>
      if sum = nsum then
        { state := s, err := none, calls := [.computeSum filename] }
      else if filename = s.cfg.tokenFile then
        match loadTokensFile env filename with
        | .error err =>
          { state := s, err := some err
            calls := [.computeSum filename, .loadTokensFile filename] }
        | .ok t =>
          { state :=
              { s with files := Function.update s.files filename (some nsum), tokens := some t }
            err := none
            calls := [.computeSum filename, .loadTokensFile filename] }
      else if filename = s.cfg.authFile then
        match loadAuthorizationFile env filename with
        | .error err =>
          { state := s, err := some err
            calls := [.computeSum filename, .loadAuthorizationFile filename] }
        | .ok t =>
          { state :=
              { s with files := Function.update s.files filename (some nsum), authz := some t }
            err := none
            calls := [.computeSum filename, .loadAuthorizationFile filename] }
      else
        { state := s, err := none, calls := [.computeSum filename] }

/-- The loop state of `createWatcher`: the digest map, the local map `watching`
and the directories handed to `watcher.Add` so far. -/
structure Watching where
  files : String → Option Digest
  watching : String → Bool
  added : List String

/-- The loop of `createWatcher` over the configured paths. -/
def service.createWatcher.loop (env : Env) : List String → Watching → Except GoError Watching
  | [], w => .ok w
  | x :: rest, w =>
    if x = "" then
      service.createWatcher.loop env rest w
    else
      let w := { w with files := Function.update w.files x (some 0) }
      let dir := env.Dir x
      if w.watching x then
        service.createWatcher.loop env rest w
      else
        let w := { w with watching := Function.update w.watching dir true }
        match env.Add dir with
        | some err => .error err
        | none => service.createWatcher.loop env rest { w with added := w.added ++ [dir] }

/-- The method `service.createWatcher`, up to the start of the event routine:
the digest map it leaves in the service and the directories it registered. -/
def service.createWatcher (env : Env) (s : service) : Except GoError (service × List String) :=
  match env.NewWatcher with
  | some err => .error err
  | none =>
    match service.createWatcher.loop env [s.cfg.tokenFile, s.cfg.authFile]
        { files := s.files, watching := fun _ => false, added := [] } with
    | .error err => .error err
    | .ok w => .ok ({ s with files := w.files }, w.added)

/-- Modelled from the spec: `options.isValid` is declared in a file of the
repository that is not among the sources; `TestOptionsIsValid` fixes its
result: the listen address, the certificate, the key and the token file are
required, in this order. -/
def options.isValid (o : options) : Option GoError :=
  if o.listen = "" then some "no listen"
  else if o.tlsCert = "" then some "no tls cert"
  else if o.tlsKey = "" then some "no tls key"
  else if o.tokenFile = "" then some "no tokens file"
  else none

/-- What `newService` returns, with the calls it made and the directories it
registered with the watcher. -/
structure Startup where
  service : Option service
  err : Option GoError
  calls : List Call
  watched : List String := []

/-- The function `newService`. -/
def newService (env : Env) (o : options) : Startup :=
  match o.isValid with
  | some err => { service := none, err := some err, calls := [] }
  | none =>
    let s : service := { cfg := o, files := fun _ => none }
    match s.createWatcher env with
    | .error err => { service := none, err := some err, calls := [] }
    | .ok (s, watched) =>
      match loadTokensFile env s.cfg.tokenFile with
      | .error err =>
        { service := none, err := some err, calls := [.loadTokensFile s.cfg.tokenFile]
          watched := watched }
      | .ok t =>
        let s := { s with tokens := some t }
        if s.cfg.authFile ≠ "" then
          match loadAuthorizationFile env s.cfg.authFile with
          | .error err =>
            { service := none, err := some err
              calls := [.loadTokensFile s.cfg.tokenFile, .loadAuthorizationFile s.cfg.authFile]
              watched := watched }
          | .ok t =>
            { service := some { s with authz := some t }, err := none
              calls := [.loadTokensFile s.cfg.tokenFile, .loadAuthorizationFile s.cfg.authFile]
              watched := watched }
        else
          { service := some s, err := none, calls := [.loadTokensFile s.cfg.tokenFile]
            watched := watched }

/-- The operation bit of a creation, in `fsnotify.Op`. -/
def fsnotify.Create : Nat := 1

/-- The operation bit of a write. -/
def fsnotify.Write : Nat := 2

/-- The operation bit of a removal. -/
def fsnotify.Remove : Nat := 4

/-- The operation bit of a rename. -/
def fsnotify.Rename : Nat := 8

/-- The operation bit of a change of mode. -/
def fsnotify.Chmod : Nat := 16

/-- A notification `fsnotify.Event`. -/
structure Event where
  Name : String
  Op : Nat
  deriving DecidableEq, Repr

/-- The event routine started by `createWatcher`, run over the notifications
it receives, each with the file system at that time: write and create events
go to `processFileEvent`, whose error is logged and dropped. -/
def service.watch (s : service) : List (Env × Event) → service
  | [] => s
  | (env, e) :: rest =>
    if e.Op &&& fsnotify.Write = fsnotify.Write ∨ e.Op &&& fsnotify.Create = fsnotify.Create then
      service.watch (s.processFileEvent env e.Name).state rest
    else
      service.watch s rest

/-- The states of the service over its lifetime: the one `newService` returns
for the options `o`, and every state `processFileEvent` leaves, whatever the
file system and the file name of the event. -/
inductive Reachable (o : options) : service → Prop where
  | start (env : Env) (s : service) (h : (newService env o).service = some s) : Reachable o s
  | event (env : Env) (filename : String) (s : service) (h : Reachable o s) :
    Reachable o (s.processFileEvent env filename).state

/-- The states in which `filename` was last reloaded by an event that read
`content`, so that the installed provider was loaded from `content`: the state
right after such a reload, and every state a later event leaves, whatever its
file name and file system, unless that event reloads `filename` again. -/
inductive LoadedFrom (filename : String) (content : List UInt8) : service → Prop where
  | reload (env : Env) (s : service) (hread : env.ReadFile filename = .ok content)
    (hcall : Call.loadTokensFile filename ∈ (s.processFileEvent env filename).calls ∨
      Call.loadAuthorizationFile filename ∈ (s.processFileEvent env filename).calls)
    (herr : (s.processFileEvent env filename).err = none) :
    LoadedFrom filename content (s.processFileEvent env filename).state
  | later (env : Env) (other : String) (s : service) (h : LoadedFrom filename content s)
    (hkeep : (Call.loadTokensFile filename ∉ (s.processFileEvent env other).calls ∧
        Call.loadAuthorizationFile filename ∉ (s.processFileEvent env other).calls) ∨
      (s.processFileEvent env other).err ≠ none) :
    LoadedFrom filename content (s.processFileEvent env other).state

/-! ### path

The functions `path.Clean` and `path.Dir` of the Go standard library, on the
bytes of the path. -/

/-- The write index after `out.w--` and the loop that steps back to the
previous slash, never below `dotdot`. -/
def path.backtrack (out : List Char) (dotdot : Nat) : Nat → Nat
  | 0 => 0
  | w + 1 =>
    if dotdot < w + 1 ∧ out.getD (w + 1) '/' ≠ '/' then path.backtrack out dotdot w else w + 1

/-- The loop of `path.Clean` over the unread bytes `rest`, with the buffer
`out` written so far and the index `dotdot` below which it cannot backtrack. -/
def path.cleanLoop (rooted : Bool) : Nat → List Char → List Char → Nat → List Char
  | 0, _, out, _ => out
  | fuel + 1, rest, out, dotdot =>
    match rest with
    | [] => out
    | '/' :: tl => path.cleanLoop rooted fuel tl out dotdot
    | '.' :: [] => path.cleanLoop rooted fuel [] out dotdot
    | '.' :: '/' :: tl => path.cleanLoop rooted fuel ('/' :: tl) out dotdot
    | '.' :: '.' :: tl =>
      if tl = [] ∨ tl.head? = some '/' then
        if dotdot < out.length then
          path.cleanLoop rooted fuel tl
            (out.take (path.backtrack out dotdot (out.length - 1))) dotdot
        else if !rooted then
          let out := (if 0 < out.length then out ++ ['/'] else out) ++ ['.', '.']
          path.cleanLoop rooted fuel tl out out.length
        else
          path.cleanLoop rooted fuel tl out dotdot
      else
        let out :=
          if rooted ∧ out.length ≠ 1 ∨ !rooted ∧ out.length ≠ 0 then out ++ ['/'] else out
        path.cleanLoop rooted fuel (rest.dropWhile (· ≠ '/'))
          (out ++ rest.takeWhile (· ≠ '/')) dotdot
    | _ =>
      let out :=
        if rooted ∧ out.length ≠ 1 ∨ !rooted ∧ out.length ≠ 0 then out ++ ['/'] else out
      path.cleanLoop rooted fuel (rest.dropWhile (· ≠ '/'))
        (out ++ rest.takeWhile (· ≠ '/')) dotdot

/-- The function `path.Clean`: the shortest path equivalent to `p` by lexical
processing. Every turn of the loop consumes a byte, so the length of the path
is fuel enough. -/
def path.Clean (p : String) : String :=
  if p = "" then "."
  else
    let rooted := p.toList.head? = some '/'
    let out :=
      if rooted then path.cleanLoop true (p.length + 1) (p.toList.drop 1) ['/'] 1
      else path.cleanLoop false (p.length + 1) p.toList [] 0
    if out.length = 0 then "." else String.mk out

/-- The directory part of `path.Split`: the bytes up to and including the last
slash. -/
def path.splitDir : List Char → List Char
  | [] => []
  | c :: tl => if '/' ∈ tl then c :: path.splitDir tl else if c = '/' then [c] else []

/-- The function `path.Dir`: all but the last element of the path, cleaned. -/
def path.Dir (p : String) : String := path.Clean (String.mk (path.splitDir p.toList))

/-! ## Sample data

The token table of `server_test.go` and small providers, used to run the
definitions on concrete inputs. -/

/-- A provider that answers from a table by exact match, as the token file
authenticator does: `(nil, false, nil)` for an unknown token. -/
def tokenTable (table : List (String × DefaultInfo)) : authentication where
  AuthenticateToken := fun value =>
    match table.lookup value with
    | none => (none, false, none)
    | some user => (some user, true, none)

/-- The table of `defaultTestTokens`. -/
def defaultTestTokens : List (String × DefaultInfo) :=
  [ ("token1", { Name := "user1", UID := "uuid1" }),
    ("token2", { Name := "user2", UID := "uuid2" }),
    ("token3", { Name := "user3", UID := "uuid3", Groups := ["group3"] }) ]

/-- A provider whose backend is down: every lookup fails. -/
def brokenTokens : authentication where
  AuthenticateToken := fun _ => (none, false, some "backend unavailable")

/-- A provider that allows one user name and denies every other subject with
the reason of the ABAC authorizer. -/
def allowUser (name : String) : authorization where
  Authorize := fun a =>
    if a.User.Name = name then (true, "", none) else (false, "No policy matched.", none)

/-- A provider that allows every request and still gives a reason. -/
def allowAll : authorization where
  Authorize := fun _ => (true, "allowed by default", none)

/-- A provider whose backend is down: every decision fails. -/
def brokenPolicy : authorization where
  Authorize := fun _ => (false, "", some "backend unavailable")

/-- The options of `newTestingService`, with fixed file names. -/
def testOptions : options :=
  { listen := "127.0.0.1:8080", tlsCert := "does_not_exist", tlsKey := "does_not_exist"
    tokenFile := "/tmp/kube-auth.tokens", authFile := "/tmp/kube-auth.policy" }

/-- A running service with the test token table and a one-user policy. -/
def testService : service :=
  { cfg := testOptions
    tokens := some (tokenTable defaultTestTokens)
    authz := some (allowUser "admin") }

/-- A decoder that rejects the empty body with the error of the JSON decoder
and reads every other body as the token, respectively the user name, of the
review. -/
def testBinding : Binding where
  TokenReview := fun body =>
    if body = "" then .error "EOF" else .ok { Spec := { Token := body } }
  SubjectAccessReview := fun body =>
    if body = "" then .error "EOF"
    else .ok { Spec := { User := body, ResourceAttributes := some { Verb := "get" } } }

/-- An access review that carries both attribute records. -/
def bothAttributesReview : SubjectAccessReview :=
  { Spec :=
      { User := "user1"
        ResourceAttributes :=
          some { Verb := "delete", Namespace := "default", Resource := "pods" }
        NonResourceAttributes := some { Path := "/v1/api", Verb := "get" } } }

/-- The bytes of an ASCII string. -/
def bytes (s : String) : List UInt8 := s.toList.map fun c => c.toNat.toUInt8

/-- The content of the token file of the tests, `defaultTestTokens`. -/
def defaultTestTokensContent : List UInt8 :=
  bytes "\ntoken1,user1,uuid1\ntoken2,user2,uuid2\ntoken3,user3,uuid3,group3\n"

/-- A file system that holds the token file of the tests and an empty policy
file, with loaders that answer for these two files only. -/
def testEnv : Env where
  ReadFile := fun path =>
    if path = "/tmp/kube-auth.tokens" then .ok defaultTestTokensContent
    else if path = "/tmp/kube-auth.policy" then .ok []
    else .error "no such file or directory"
  NewCSV := fun filename =>
    if filename = "/tmp/kube-auth.tokens" then .ok (tokenTable defaultTestTokens)
    else .error "no such file or directory"
  NewFromFile := fun filename =>
    if filename = "/tmp/kube-auth.policy" then .ok (allowUser "admin")
    else .error "no such file or directory"
  Dir := fun path =>
    if path = "/tmp/kube-auth.tokens" ∨ path = "/tmp/kube-auth.policy" then "/tmp" else "."
  NewWatcher := none
  Add := fun _ => none

/-- The file system of `testEnv` after `token5` was appended to the token
file, as `TestAuthenticationFileChange` does. -/
def updatedEnv : Env :=
  { testEnv with
    ReadFile := fun path =>
      if path = "/tmp/kube-auth.tokens" then
        .ok (defaultTestTokensContent ++ bytes "token5,user5,uuid5,\"group1,group2\"\n")
      else testEnv.ReadFile path
    NewCSV := fun filename =>
      if filename = "/tmp/kube-auth.tokens" then
        .ok (tokenTable (defaultTestTokens ++
          [("token5", { Name := "user5", UID := "uuid5", Groups := ["group1", "group2"] })]))
      else testEnv.NewCSV filename }

/-- The file system of `testEnv` after the token file was overwritten with a
line the CSV loader rejects. -/
def brokenEnv : Env :=
  { testEnv with
    ReadFile := fun path =>
      if path = "/tmp/kube-auth.tokens" then .ok (bytes "token1\n")
      else testEnv.ReadFile path
    NewCSV := fun filename =>
      if filename = "/tmp/kube-auth.tokens" then
        .error "token file '/tmp/kube-auth.tokens' must have at least 3 columns"
      else testEnv.NewCSV filename }

/-- The service `newService` leaves in `testEnv`: both providers loaded and
the all-zero digest stored for both files. -/
def startedService : service :=
  { cfg := testOptions
    tokens := some (tokenTable defaultTestTokens)
    authz := some (allowUser "admin")
    files := Function.update (Function.update (fun _ => none) "/tmp/kube-auth.tokens" (some 0))
      "/tmp/kube-auth.policy" (some 0) }

/-- The service of `startedService` once the digest of the token file of the
tests is stored. -/
def reloadedService : service :=
  { startedService with
    files := Function.update startedService.files "/tmp/kube-auth.tokens"
      (some 0xbe8f41a36f876c6b7c0320e16f02cf5c) }

/-- Options whose policy path is the directory of the token file. -/
def nestedOptions : options :=
  { listen := "127.0.0.1:8080", tlsCert := "does_not_exist", tlsKey := "does_not_exist"
    tokenFile := "/etc/kube/tokens.csv", authFile := "/etc/kube" }

/-- A file system in which every directory can be watched, with the
directories computed by `path.Dir`. -/
def watchableEnv : Env :=
  { testEnv with Dir := path.Dir }

/-- The options of the tests without a policy file. -/
def tokensOnlyOptions : options :=
  { testOptions with authFile := "" }

/-- The file system of `testEnv` after the policy file was rewritten to allow
`admin_user`, as `TestAuthorizationFileChange` does. -/
def updatedPolicyEnv : Env :=
  { testEnv with
    ReadFile := fun path =>
      if path = "/tmp/kube-auth.policy" then .ok (bytes "user=admin_user\n")
      else testEnv.ReadFile path
    NewFromFile := fun filename =>
      if filename = "/tmp/kube-auth.policy" then .ok (allowUser "admin_user")
      else testEnv.NewFromFile filename }

/-! ## Token review: `service.authentication` -/

/-- C1. With a provider installed, `service.authentication` returns the
provider error when the lookup fails; otherwise, for a token that is not found,
no error and the response with the `TokenReview` header, `Authenticated` false,
the error text `token not found` and an empty user; otherwise no error and the
response with the same header, `Authenticated` true, the uid, name and groups of
the identity in the same order, and an empty error text. -/
theorem authentication_result (s : service) (tokens : authentication) (review : TokenReview)
    (h : s.tokens = some tokens) :
    (∀ user found err, tokens.AuthenticateToken review.Spec.Token = (user, found, some err) →
      s.authentication review =
        .returned
          { TypeMeta := { APIVersion := "authentication.k8s.io/v1beta1", Kind := "TokenReview" } }
          (some err)) ∧
    (∀ user, tokens.AuthenticateToken review.Spec.Token = (user, false, none) →
      s.authentication review =
        .returned
          { TypeMeta := { APIVersion := "authentication.k8s.io/v1beta1", Kind := "TokenReview" }
            Status :=
              { Authenticated := false, Error := "token not found"
                User := { UID := "", Username := "", Groups := [] } } }
          none) ∧
    (∀ user, tokens.AuthenticateToken review.Spec.Token = (some user, true, none) →
      s.authentication review =
        .returned
          { TypeMeta := { APIVersion := "authentication.k8s.io/v1beta1", Kind := "TokenReview" }
            Status :=
              { Authenticated := true, Error := ""
                User := { UID := user.UID, Username := user.Name, Groups := user.Groups } } }
          none) := by
  refine ⟨?_, ?_, ?_⟩
  · intro user found err hp
    simp [service.authentication, h, hp]
  · intro user hp
    simp [service.authentication, h, hp]
  · intro user hp
    simp [service.authentication, h, hp]

/-- The three cases of C1 on the test table: `token3` is found with its
group, `bad_token` is not found, and a failing provider hands its error on. -/
theorem authentication_result_witness :
    testService.authentication { Spec := { Token := "token3" } } =
        .returned
          { TypeMeta := { APIVersion := "authentication.k8s.io/v1beta1", Kind := "TokenReview" }
            Status :=
              { Authenticated := true
                User := { UID := "uuid3", Username := "user3", Groups := ["group3"] } } }
          none ∧
      testService.authentication { Spec := { Token := "bad_token" } } =
        .returned
          { TypeMeta := { APIVersion := "authentication.k8s.io/v1beta1", Kind := "TokenReview" }
            Status := { Authenticated := false, Error := "token not found" } }
          none ∧
      ({ testService with tokens := some brokenTokens } : service).authentication
          { Spec := { Token := "token1" } } =
        .returned
          { TypeMeta := { APIVersion := "authentication.k8s.io/v1beta1", Kind := "TokenReview" } }
          (some "backend unavailable") :=
  ⟨(authentication_result testService (tokenTable defaultTestTokens)
      { Spec := { Token := "token3" } } rfl).2.2
      { Name := "user3", UID := "uuid3", Groups := ["group3"] } (by decide),
   (authentication_result testService (tokenTable defaultTestTokens)
      { Spec := { Token := "bad_token" } } rfl).2.1 none (by decide),
   (authentication_result { testService with tokens := some brokenTokens } brokenTokens
      { Spec := { Token := "token1" } } rfl).1 none false "backend unavailable" rfl⟩

/-! ## Access review: `service.authorize` -/

/-- C2. With a provider installed, `service.authorize` returns the provider
error when the decision fails; otherwise, for a denied request, no error and the
response with the `SubjectAccessReview` header, `Allowed` false and the reason
of the provider; otherwise no error and the response with the same header,
`Allowed` true and an empty reason, whatever reason the provider gave. -/
theorem authorize_result (s : service) (authz : authorization) (review : SubjectAccessReview)
    (h : s.authz = some authz) :
    (∀ allowed reason err,
      authz.Authorize (service.authorizeRequest review) = (allowed, reason, some err) →
      s.authorize review =
        .returned
          { TypeMeta :=
              { Kind := "SubjectAccessReview", APIVersion := "authorization.k8s.io/v1beta1" } }
          (some err)) ∧
    (∀ reason, authz.Authorize (service.authorizeRequest review) = (false, reason, none) →
      s.authorize review =
        .returned
          { TypeMeta :=
              { Kind := "SubjectAccessReview", APIVersion := "authorization.k8s.io/v1beta1" }
            Status := { Allowed := false, Reason := reason } }
          none) ∧
    (∀ reason, authz.Authorize (service.authorizeRequest review) = (true, reason, none) →
      s.authorize review =
        .returned
          { TypeMeta :=
              { Kind := "SubjectAccessReview", APIVersion := "authorization.k8s.io/v1beta1" }
            Status := { Allowed := true, Reason := "" } }
          none) := by
  refine ⟨?_, ?_, ?_⟩
  · intro allowed reason err hp
    simp [service.authorize, h, hp]
  · intro reason hp
    simp [service.authorize, h, hp]
  · intro reason hp
    simp [service.authorize, h, hp]

/-- The three cases of C2: a denied user gets the reason of the provider, an
allowed request loses the reason the provider gave, and a failing provider
hands its error on. -/
theorem authorize_result_witness :
    testService.authorize { Spec := { User := "user1", ResourceAttributes := some {} } } =
        .returned
          { TypeMeta :=
              { Kind := "SubjectAccessReview", APIVersion := "authorization.k8s.io/v1beta1" }
            Status := { Allowed := false, Reason := "No policy matched." } }
          none ∧
      ({ testService with authz := some allowAll } : service).authorize
          { Spec := { User := "user1", ResourceAttributes := some {} } } =
        .returned
          { TypeMeta :=
              { Kind := "SubjectAccessReview", APIVersion := "authorization.k8s.io/v1beta1" }
            Status := { Allowed := true, Reason := "" } }
          none ∧
      ({ testService with authz := some brokenPolicy } : service).authorize
          { Spec := { User := "user1", ResourceAttributes := some {} } } =
        .returned
          { TypeMeta :=
              { Kind := "SubjectAccessReview", APIVersion := "authorization.k8s.io/v1beta1" } }
          (some "backend unavailable") :=
  ⟨(authorize_result testService (allowUser "admin")
      { Spec := { User := "user1", ResourceAttributes := some {} } } rfl).2.1
      "No policy matched." (by decide),
   (authorize_result { testService with authz := some allowAll } allowAll
      { Spec := { User := "user1", ResourceAttributes := some {} } } rfl).2.2
      "allowed by default" rfl,
   (authorize_result { testService with authz := some brokenPolicy } brokenPolicy
      { Spec := { User := "user1", ResourceAttributes := some {} } } rfl).1
      false "" "backend unavailable" rfl⟩

/-- C5. For a review that carries exactly one of the two attribute records,
let `ref` be the reference record: the subject name and groups of the review
and either the seven resource fields, an empty path and `ResourceRequest` true,
or the path and verb of the non-resource attributes, six empty resource fields
and `ResourceRequest` false. Then the record `service.authorize` builds is
`ref`, and for every installed provider the result of `service.authorize` is
the one that follows from the answer of the provider at `ref`: its error, the
denial with its reason, or the approval; a provider that approves `ref` and no
other record is answered with an approval. -/
theorem authorize_request_reference (review : SubjectAccessReview) (ref : AttributesRecord)
    (href :
      (∃ ra, review.Spec.ResourceAttributes = some ra ∧
        review.Spec.NonResourceAttributes = none ∧
        ref =
          { User := { Name := review.Spec.User, UID := "", Groups := review.Spec.Groups }
            Verb := ra.Verb
            Namespace := ra.Namespace
            APIGroup := ra.Group
            APIVersion := ra.Version
            Resource := ra.Resource
            Subresource := ra.Subresource
            Name := ra.Name
            Path := ""
            ResourceRequest := true }) ∨
      (∃ nra, review.Spec.ResourceAttributes = none ∧
        review.Spec.NonResourceAttributes = some nra ∧
        ref =
          { User := { Name := review.Spec.User, UID := "", Groups := review.Spec.Groups }
            Verb := nra.Verb
            Namespace := ""
            APIGroup := ""
            APIVersion := ""
            Resource := ""
            Subresource := ""
            Name := ""
            Path := nra.Path
            ResourceRequest := false })) :
    service.authorizeRequest review = ref ∧
    (∀ (s : service) (authz : authorization), s.authz = some authz →
      (∀ allowed reason err, authz.Authorize ref = (allowed, reason, some err) →
        s.authorize review =
          .returned
            { TypeMeta :=
                { Kind := "SubjectAccessReview", APIVersion := "authorization.k8s.io/v1beta1" } }
            (some err)) ∧
      (∀ reason, authz.Authorize ref = (false, reason, none) →
        s.authorize review =
          .returned
            { TypeMeta :=
                { Kind := "SubjectAccessReview", APIVersion := "authorization.k8s.io/v1beta1" }
              Status := { Allowed := false, Reason := reason } }
            none) ∧
      (∀ reason, authz.Authorize ref = (true, reason, none) →
        s.authorize review =
          .returned
            { TypeMeta :=
                { Kind := "SubjectAccessReview", APIVersion := "authorization.k8s.io/v1beta1" }
              Status := { Allowed := true } }
            none)) ∧
    (∀ s : service,
      s.authz = some ⟨fun a => if a = ref then (true, "", none) else (false, "other", none)⟩ →
      s.authorize review =
        .returned
          { TypeMeta :=
              { Kind := "SubjectAccessReview", APIVersion := "authorization.k8s.io/v1beta1" }
            Status := { Allowed := true } }
          none) := by
  have hreq : service.authorizeRequest review = ref := by
    rcases href with ⟨ra, hra, hnra, hr⟩ | ⟨nra, hra, hnra, hr⟩
    · rw [hr]
      simp [service.authorizeRequest, hra, hnra]
    · rw [hr]
      simp [service.authorizeRequest, hra, hnra]
  refine ⟨hreq, ?_, ?_⟩
  · intro s authz h
    refine ⟨?_, ?_, ?_⟩
    · intro allowed reason err hp
      simp [service.authorize, h, hreq, hp]
    · intro reason hp
      simp [service.authorize, h, hreq, hp]
    · intro reason hp
      simp [service.authorize, h, hreq, hp]
  · intro s h
    simp [service.authorize, h, hreq]

/-- The two branches of C5 on requests of `TestAuthorization`: the record
built for the resource request of `user3`, and the denial `service.authorize`
returns for the non-resource request once the provider has answered at its
reference record. -/
theorem authorize_request_reference_witness :
    service.authorizeRequest
        { Spec :=
            { User := "user3", Groups := ["group3"]
              ResourceAttributes :=
                some { Resource := "pods", Namespace := "sip-demo", Verb := "get" } } } =
        { User := { Name := "user3", Groups := ["group3"] }
          Verb := "get", Namespace := "sip-demo", Resource := "pods", ResourceRequest := true } ∧
      testService.authorize
        { Spec := { NonResourceAttributes := some { Path := "/v1/api", Verb := "get" } } } =
        .returned
          { TypeMeta :=
              { Kind := "SubjectAccessReview", APIVersion := "authorization.k8s.io/v1beta1" }
            Status := { Allowed := false, Reason := "No policy matched." } }
          none :=
  ⟨(authorize_request_reference
      { Spec :=
          { User := "user3", Groups := ["group3"]
            ResourceAttributes :=
              some { Resource := "pods", Namespace := "sip-demo", Verb := "get" } } }
      { User := { Name := "user3", Groups := ["group3"] }
        Verb := "get", Namespace := "sip-demo", Resource := "pods", ResourceRequest := true }
      (Or.inl ⟨{ Resource := "pods", Namespace := "sip-demo", Verb := "get" },
        rfl, rfl, rfl⟩)).1,
   ((authorize_request_reference
      { Spec := { NonResourceAttributes := some { Path := "/v1/api", Verb := "get" } } }
      { Verb := "get", Path := "/v1/api", ResourceRequest := false }
      (Or.inr ⟨{ Path := "/v1/api", Verb := "get" }, rfl, rfl, rfl⟩)).2.1
      testService (allowUser "admin") rfl).2.1 "No policy matched." (by decide)⟩

/-- C6. A review that carries both attribute records yields a record marked as
a resource request whose verb is the verb of the non-resource attributes and
whose path is set: the resource branch and the non-resource branch are both
populated. -/
theorem authorize_request_both_attributes :
    service.authorizeRequest bothAttributesReview =
        { User := { Name := "user1" }
          Verb := "get"
          Namespace := "default"
          Resource := "pods"
          Path := "/v1/api"
          ResourceRequest := true } ∧
      (service.authorizeRequest bothAttributesReview).ResourceRequest = true ∧
      (service.authorizeRequest bothAttributesReview).Verb ≠ "delete" ∧
      (service.authorizeRequest bothAttributesReview).Path ≠ "" := by
  decide

/-! ## Dispatch: `service.authorizeHandler` -/

/-- C3 without a policy file. The service `newService` returns for the options
of the tests without a policy file holds no authorization provider; for the
kind `policy` and a body that decodes, `authorize` returns no error and the
handler reports no status: it panics. -/
theorem authorizeHandler_policy_without_provider :
    (newService testEnv tokensOnlyOptions).err = none ∧
      ({ kind := "policy", body := "admin" } : Context).kind = "policy" ∧
      testBinding.SubjectAccessReview "admin" =
        .ok { Spec := { User := "admin", ResourceAttributes := some { Verb := "get" } } } ∧
      ((newService testEnv tokensOnlyOptions).service.map fun s =>
        s.authorize { Spec := { User := "admin", ResourceAttributes := some { Verb := "get" } } })
        = some .panicked ∧
      ((newService testEnv tokensOnlyOptions).service.map fun s =>
        s.authorizeHandler testBinding { kind := "policy", body := "admin" }) =
        some .panicked := by
  refine ⟨by rfl, by rfl, by rfl, by rfl, by rfl⟩

/-- C3, as the code has it. In every service state the handler reports 404
for a kind other than `token` and `policy`, whatever the body, and else 400
when the body does not decode into the review of that kind. Else, when the
provider of that kind is installed, it reports 500 when the provider returns
an error and else 200 with the review response as body: for a token that is
not found and for a denied access as well as for an identity and for an
approval. It reports 200 only for a recognised kind, a decoded body and a call
that returned no error. -/
theorem authorizeHandler_status (bind : Binding) (r : service) (cx : Context) :
    (cx.kind ≠ "token" → cx.kind ≠ "policy" →
      r.authorizeHandler bind cx = .responded 404 .empty) ∧
    (cx.kind = "token" → ∀ e, bind.TokenReview cx.body = .error e →
      r.authorizeHandler bind cx = .responded 400 .empty) ∧
    (cx.kind = "policy" → ∀ e, bind.SubjectAccessReview cx.body = .error e →
      r.authorizeHandler bind cx = .responded 400 .empty) ∧
    (cx.kind = "token" → ∀ review tokens, bind.TokenReview cx.body = .ok review →
      r.tokens = some tokens →
      (∀ user found e, tokens.AuthenticateToken review.Spec.Token = (user, found, some e) →
        r.authorizeHandler bind cx = .responded 500 .empty) ∧
      (∀ user, tokens.AuthenticateToken review.Spec.Token = (user, false, none) →
        r.authorizeHandler bind cx =
          .responded 200
            (.tokenReview
              { TypeMeta :=
                  { APIVersion := "authentication.k8s.io/v1beta1", Kind := "TokenReview" }
                Status := { Authenticated := false, Error := "token not found" } })) ∧
      (∀ user, tokens.AuthenticateToken review.Spec.Token = (some user, true, none) →
        r.authorizeHandler bind cx =
          .responded 200
            (.tokenReview
              { TypeMeta :=
                  { APIVersion := "authentication.k8s.io/v1beta1", Kind := "TokenReview" }
                Status :=
                  { Authenticated := true
                    User :=
                      { UID := user.UID, Username := user.Name, Groups := user.Groups } } }))) ∧
    (cx.kind = "policy" → ∀ review authz, bind.SubjectAccessReview cx.body = .ok review →
      r.authz = some authz →
      (∀ allowed reason e,
        authz.Authorize (service.authorizeRequest review) = (allowed, reason, some e) →
        r.authorizeHandler bind cx = .responded 500 .empty) ∧
      (∀ reason, authz.Authorize (service.authorizeRequest review) = (false, reason, none) →
        r.authorizeHandler bind cx =
          .responded 200
            (.subjectAccessReview
              { TypeMeta :=
                  { Kind := "SubjectAccessReview"
                    APIVersion := "authorization.k8s.io/v1beta1" }
                Status := { Allowed := false, Reason := reason } })) ∧
      (∀ reason, authz.Authorize (service.authorizeRequest review) = (true, reason, none) →
        r.authorizeHandler bind cx =
          .responded 200
            (.subjectAccessReview
              { TypeMeta :=
                  { Kind := "SubjectAccessReview"
                    APIVersion := "authorization.k8s.io/v1beta1" }
                Status := { Allowed := true } }))) ∧
    (∀ body, r.authorizeHandler bind cx = .responded 200 body →
      (cx.kind = "token" ∧ ∃ review response, bind.TokenReview cx.body = .ok review ∧
        r.authentication review = .returned response none ∧ body = .tokenReview response) ∨
      (cx.kind = "policy" ∧ ∃ review response, bind.SubjectAccessReview cx.body = .ok review ∧
        r.authorize review = .returned response none ∧
        body = .subjectAccessReview response)) := by
  refine ⟨?_, ?_, ?_, ?_, ?_, ?_⟩
  · intro h1 h2
    simp [service.authorizeHandler, h1, h2, http.StatusNotFound]
  · intro hk e he
    simp [service.authorizeHandler, hk, he, http.StatusBadRequest]
  · intro hk e he
    simp [service.authorizeHandler, hk, he, http.StatusBadRequest]
  · intro hk review tokens hr ht
    refine ⟨?_, ?_, ?_⟩
    · intro user found e hp
      simp [service.authorizeHandler, hk, hr, service.authentication, ht, hp,
        http.StatusInternalServerError]
    · intro user hp
      simp [service.authorizeHandler, hk, hr, service.authentication, ht, hp, http.StatusOK]
    · intro user hp
      simp [service.authorizeHandler, hk, hr, service.authentication, ht, hp, http.StatusOK]
  · intro hk review authz hr ha
    refine ⟨?_, ?_, ?_⟩
    · intro allowed reason e hp
      simp [service.authorizeHandler, hk, hr, service.authorize, ha, hp,
        http.StatusInternalServerError]
    · intro reason hp
      simp [service.authorizeHandler, hk, hr, service.authorize, ha, hp, http.StatusOK]
    · intro reason hp
      simp [service.authorizeHandler, hk, hr, service.authorize, ha, hp, http.StatusOK]
  · intro body hb
    unfold service.authorizeHandler at hb
    by_cases h1 : cx.kind = "token"
    · left
      refine ⟨h1, ?_⟩
      simp only [h1, if_true] at hb
      cases hd : bind.TokenReview cx.body with
      | error e => simp [hd, http.StatusBadRequest] at hb
      | ok review =>
        cases hc : r.authentication review with
        | panicked => simp [hd, hc] at hb
        | returned response err =>
          cases err with
          | some e => simp [hd, hc, http.StatusInternalServerError] at hb
          | none =>
            simp only [hd, hc] at hb
            refine ⟨review, response, rfl, hc, ?_⟩
            injection hb with _ h2
            exact h2.symm
    · by_cases h2 : cx.kind = "policy"
      · right
        refine ⟨h2, ?_⟩
        simp only [h1, h2, if_true, if_false] at hb
        cases hd : bind.SubjectAccessReview cx.body with
        | error e => simp [hd, http.StatusBadRequest] at hb
        | ok review =>
          cases hc : r.authorize review with
          | panicked => simp [hd, hc] at hb
          | returned response err =>
            cases err with
            | some e => simp [hd, hc, http.StatusInternalServerError] at hb
            | none =>
              simp only [hd, hc] at hb
              refine ⟨review, response, rfl, hc, ?_⟩
              injection hb with _ h3
              exact h3.symm
      · simp [h1, h2, http.StatusNotFound] at hb

/-- The cases of the amended C3 on the test service: an unknown kind, an empty
body, a failing provider, a token that is not found and a denied user. -/
theorem authorizeHandler_status_witness :
    testService.authorizeHandler testBinding { kind := "not_there", body := "" } =
        .responded 404 .empty ∧
      testService.authorizeHandler testBinding { kind := "token", body := "" } =
        .responded 400 .empty ∧
      ({ testService with authz := some brokenPolicy } : service).authorizeHandler testBinding
          { kind := "policy", body := "admin" } =
        .responded 500 .empty ∧
      testService.authorizeHandler testBinding { kind := "token", body := "bad_token" } =
        .responded 200
          (.tokenReview
            { TypeMeta :=
                { APIVersion := "authentication.k8s.io/v1beta1", Kind := "TokenReview" }
              Status := { Authenticated := false, Error := "token not found" } }) ∧
      testService.authorizeHandler testBinding { kind := "policy", body := "user1" } =
        .responded 200
          (.subjectAccessReview
            { TypeMeta :=
                { Kind := "SubjectAccessReview", APIVersion := "authorization.k8s.io/v1beta1" }
              Status := { Allowed := false, Reason := "No policy matched." } }) :=
  ⟨(authorizeHandler_status testBinding testService { kind := "not_there", body := "" }).1
      (by decide) (by decide),
   (authorizeHandler_status testBinding testService { kind := "token", body := "" }).2.1
      rfl "EOF" rfl,
   ((authorizeHandler_status testBinding { testService with authz := some brokenPolicy }
      { kind := "policy", body := "admin" }).2.2.2.2.1 rfl
      { Spec := { User := "admin", ResourceAttributes := some { Verb := "get" } } }
      brokenPolicy rfl rfl).1 false "" "backend unavailable" rfl,
   ((authorizeHandler_status testBinding testService
      { kind := "token", body := "bad_token" }).2.2.2.1 rfl
      { Spec := { Token := "bad_token" } } (tokenTable defaultTestTokens) rfl rfl).2.1
      none (by decide),
   ((authorizeHandler_status testBinding testService
      { kind := "policy", body := "user1" }).2.2.2.2.1 rfl
      { Spec := { User := "user1", ResourceAttributes := some { Verb := "get" } } }
      (allowUser "admin") rfl rfl).2.1 "No policy matched." (by decide)⟩

/-- C4. For a request whose kind is unrecognised or whose body fails to decode,
the outcome of `authorizeHandler` is the same in any two service states, in
particular in two states that differ only in their providers: no provider is
consulted. -/
theorem authorizeHandler_rejects_without_provider (bind : Binding) (s₁ s₂ : service)
    (cx : Context)
    (h : (cx.kind ≠ "token" ∧ cx.kind ≠ "policy") ∨
      (cx.kind = "token" ∧ ∃ e, bind.TokenReview cx.body = .error e) ∨
      (cx.kind = "policy" ∧ ∃ e, bind.SubjectAccessReview cx.body = .error e)) :
    s₁.authorizeHandler bind cx = s₂.authorizeHandler bind cx := by
  rcases h with ⟨h1, h2⟩ | ⟨hk, e, he⟩ | ⟨hk, e, he⟩
  · simp [service.authorizeHandler, h1, h2]
  · simp [service.authorizeHandler, hk, he]
  · simp [service.authorizeHandler, hk, he]

/-- C4 on an unknown kind and on an empty body: the test service and a service
with no provider at all answer alike. -/
theorem authorizeHandler_rejects_without_provider_witness :
    testService.authorizeHandler testBinding { kind := "not_there", body := "token1" } =
        ({ cfg := testOptions } : service).authorizeHandler testBinding
          { kind := "not_there", body := "token1" } ∧
      testService.authorizeHandler testBinding { kind := "token", body := "" } =
        ({ testService with tokens := some brokenTokens, authz := some allowAll } :
          service).authorizeHandler testBinding { kind := "token", body := "" } :=
  ⟨authorizeHandler_rejects_without_provider testBinding testService { cfg := testOptions }
      { kind := "not_there", body := "token1" } (Or.inl ⟨by decide, by decide⟩),
   authorizeHandler_rejects_without_provider testBinding testService
      { testService with tokens := some brokenTokens, authz := some allowAll }
      { kind := "token", body := "" } (Or.inr (Or.inl ⟨rfl, "EOF", rfl⟩))⟩

/-! ## Reload: `service.processFileEvent` -/

/-- The digest `TestComputeSum` expects for the token file of the tests. -/
theorem computeSum_defaultTestTokens :
    computeSum testEnv "/tmp/kube-auth.tokens" = .ok 0xbe8f41a36f876c6b7c0320e16f02cf5c ∧
      computeSum testEnv "file_does_not_exist" = .error "no such file or directory" :=
  ⟨by rfl, by rfl⟩

/-- An untracked file name leaves `processFileEvent` at once. -/
theorem processFileEvent_untracked (env : Env) (s : service) (filename : String)
    (h : s.files filename = none) :
    s.processFileEvent env filename = { state := s, err := none, calls := [] } := by
  simp [service.processFileEvent, h]

/-- A tracked file that cannot be read makes `processFileEvent` return the
error of `computeSum`. -/
theorem processFileEvent_unreadable (env : Env) (s : service) (filename : String)
    (sum : Digest) (err : GoError) (h : s.files filename = some sum)
    (hc : computeSum env filename = .error err) :
    s.processFileEvent env filename =
      { state := s, err := some err, calls := [.computeSum filename] } := by
  simp [service.processFileEvent, h, hc]

/-- A tracked file whose digest is the stored one makes `processFileEvent`
return after `computeSum`. -/
theorem processFileEvent_same_digest (env : Env) (s : service) (filename : String)
    (sum : Digest) (h : s.files filename = some sum) (hc : computeSum env filename = .ok sum) :
    s.processFileEvent env filename =
      { state := s, err := none, calls := [.computeSum filename] } := by
  simp [service.processFileEvent, h, hc]

/-- The token file with a new digest: the result follows `loadTokensFile`. -/
theorem processFileEvent_tokenFile (env : Env) (s : service) (filename : String)
    (sum nsum : Digest) (h : s.files filename = some sum)
    (hc : computeSum env filename = .ok nsum) (hne : sum ≠ nsum)
    (hf : filename = s.cfg.tokenFile) :
    s.processFileEvent env filename =
      match loadTokensFile env filename with
      | .error err =>
        { state := s, err := some err
          calls := [.computeSum filename, .loadTokensFile filename] }
      | .ok t =>
        { state :=
            { s with files := Function.update s.files filename (some nsum), tokens := some t }
          err := none
          calls := [.computeSum filename, .loadTokensFile filename] } := by
  subst hf
  simp [service.processFileEvent, h, hc, hne]

/-- The policy file with a new digest: the result follows
`loadAuthorizationFile`. -/
theorem processFileEvent_authFile (env : Env) (s : service) (filename : String)
    (sum nsum : Digest) (h : s.files filename = some sum)
    (hc : computeSum env filename = .ok nsum) (hne : sum ≠ nsum)
    (hf : filename ≠ s.cfg.tokenFile) (hg : filename = s.cfg.authFile) :
    s.processFileEvent env filename =
      match loadAuthorizationFile env filename with
      | .error err =>
        { state := s, err := some err
          calls := [.computeSum filename, .loadAuthorizationFile filename] }
      | .ok t =>
        { state :=
            { s with files := Function.update s.files filename (some nsum), authz := some t }
          err := none
          calls := [.computeSum filename, .loadAuthorizationFile filename] } := by
  subst hg
  simp [service.processFileEvent, h, hc, hne, hf]

/-- A tracked file that is neither configured path is not reloaded. -/
theorem processFileEvent_other (env : Env) (s : service) (filename : String)
    (sum nsum : Digest) (h : s.files filename = some sum)
    (hc : computeSum env filename = .ok nsum)
    (hf : filename ≠ s.cfg.tokenFile) (hg : filename ≠ s.cfg.authFile) :
    s.processFileEvent env filename =
      { state := s, err := none, calls := [.computeSum filename] } := by
  simp [service.processFileEvent, h, hc, hf, hg]

/-- C7. With two distinct configured paths, an event for one of them whose
digest differs from the stored one and whose file parses leaves the state equal
to the state before with that provider and that digest replaced: for the token
file `tokens` and `files[tokenFile]` change while `authz` and the digest of the
policy file stay; for the policy file `authz` and `files[authFile]` change while
`tokens` and the digest of the token file stay. -/
theorem processFileEvent_reload_frame (env : Env) (s : service) (sum nsum : Digest)
    (hpaths : s.cfg.tokenFile ≠ s.cfg.authFile) (hsum : sum ≠ nsum) :
    (∀ t, s.files s.cfg.tokenFile = some sum → computeSum env s.cfg.tokenFile = .ok nsum →
      loadTokensFile env s.cfg.tokenFile = .ok t →
      (s.processFileEvent env s.cfg.tokenFile).err = none ∧
      (s.processFileEvent env s.cfg.tokenFile).state =
        { s with
          tokens := some t
          files := Function.update s.files s.cfg.tokenFile (some nsum) } ∧
      (s.processFileEvent env s.cfg.tokenFile).state.tokens = some t ∧
      (s.processFileEvent env s.cfg.tokenFile).state.files s.cfg.tokenFile = some nsum ∧
      (s.processFileEvent env s.cfg.tokenFile).state.authz = s.authz ∧
      (s.processFileEvent env s.cfg.tokenFile).state.files s.cfg.authFile =
        s.files s.cfg.authFile) ∧
    (∀ t, s.files s.cfg.authFile = some sum → computeSum env s.cfg.authFile = .ok nsum →
      loadAuthorizationFile env s.cfg.authFile = .ok t →
      (s.processFileEvent env s.cfg.authFile).err = none ∧
      (s.processFileEvent env s.cfg.authFile).state =
        { s with
          authz := some t
          files := Function.update s.files s.cfg.authFile (some nsum) } ∧
      (s.processFileEvent env s.cfg.authFile).state.authz = some t ∧
      (s.processFileEvent env s.cfg.authFile).state.files s.cfg.authFile = some nsum ∧
      (s.processFileEvent env s.cfg.authFile).state.tokens = s.tokens ∧
      (s.processFileEvent env s.cfg.authFile).state.files s.cfg.tokenFile =
        s.files s.cfg.tokenFile) := by
  refine ⟨?_, ?_⟩
  · intro t hs hc hl
    rw [processFileEvent_tokenFile env s _ sum nsum hs hc hsum rfl, hl]
    refine ⟨rfl, rfl, rfl, ?_, rfl, ?_⟩
    · simp
    · simp [Function.update_noteq (Ne.symm hpaths)]
  · intro t hs hc hl
    rw [processFileEvent_authFile env s _ sum nsum hs hc hsum (Ne.symm hpaths) rfl, hl]
    refine ⟨rfl, rfl, rfl, ?_, rfl, ?_⟩
    · simp
    · simp [Function.update_noteq hpaths]

/-- C7 on the test service: after `token5` is appended, the event for the
token file installs the digest of the new content and keeps the all-zero digest
of the policy file. -/
theorem processFileEvent_reload_frame_witness :
    (startedService.processFileEvent updatedEnv "/tmp/kube-auth.tokens").err = none ∧
      (startedService.processFileEvent updatedEnv "/tmp/kube-auth.tokens").state.files
          "/tmp/kube-auth.tokens" = some 0xb5a05cab07359f3424d24a3e7ad57650 ∧
      (startedService.processFileEvent updatedEnv "/tmp/kube-auth.tokens").state.files
          "/tmp/kube-auth.policy" = some 0 := by
  have h := (processFileEvent_reload_frame updatedEnv startedService 0
    0xb5a05cab07359f3424d24a3e7ad57650 (by decide) (by decide)).1
    (tokenTable (defaultTestTokens ++
      [("token5", { Name := "user5", UID := "uuid5", Groups := ["group1", "group2"] })]))
    (by rfl) (by rfl) (by rfl)
  exact ⟨h.1, h.2.2.2.1, h.2.2.2.2.2⟩

/-- An error return of `processFileEvent` leaves the state as it was, and the
stored digest is not the digest of the file when the file could be read. -/
theorem processFileEvent_error_state (env : Env) (s : service) (filename : String)
    (e : GoError) (h : (s.processFileEvent env filename).err = some e) :
    (s.processFileEvent env filename).state = s ∧
      ∀ nsum, computeSum env filename = .ok nsum → s.files filename ≠ some nsum := by
  cases hs : s.files filename with
  | none =>
    rw [processFileEvent_untracked env s filename hs] at h
    simp at h
  | some sum =>
    cases hc : computeSum env filename with
    | error err =>
      rw [processFileEvent_unreadable env s filename sum err hs hc]
      simp
    | ok nsum =>
      by_cases hd : sum = nsum
      · subst hd
        rw [processFileEvent_same_digest env s filename sum hs hc] at h
        simp at h
      · have hdiff : ∀ n, Except.ok (ε := GoError) nsum = .ok n → some sum ≠ some n := by
          intro n hn
          injection hn with hn
          subst hn
          simpa using hd
        by_cases hf : filename = s.cfg.tokenFile
        · rw [processFileEvent_tokenFile env s filename sum nsum hs hc hd hf] at h ⊢
          cases hl : loadTokensFile env filename with
          | error err => exact ⟨rfl, hdiff⟩
          | ok t => simp [hl] at h
        · by_cases hg : filename = s.cfg.authFile
          · rw [processFileEvent_authFile env s filename sum nsum hs hc hd hf hg] at h ⊢
            cases hl : loadAuthorizationFile env filename with
            | error err => exact ⟨rfl, hdiff⟩
            | ok t => simp [hl] at h
          · rw [processFileEvent_other env s filename sum nsum hs hc hf hg] at h
            simp at h

/-- C8. When `processFileEvent` returns an error, the state is the state before
the call: `tokens`, `authz` and every stored digest are unchanged. So the stored
digest still differs from the digest of a file that was read but failed to
parse, the same event is processed again in the same way, and a later file
whose digest differs from the stored one and that parses is reloaded. -/
theorem processFileEvent_error_keeps_state (env : Env) (s : service) (filename : String)
    (e : GoError) (h : (s.processFileEvent env filename).err = some e) :
    (s.processFileEvent env filename).state = s ∧
    (s.processFileEvent env filename).state.tokens = s.tokens ∧
    (s.processFileEvent env filename).state.authz = s.authz ∧
    (∀ path, (s.processFileEvent env filename).state.files path = s.files path) ∧
    (∀ nsum, computeSum env filename = .ok nsum →
      (s.processFileEvent env filename).state.files filename ≠ some nsum) ∧
    (s.processFileEvent env filename).state.processFileEvent env filename =
      s.processFileEvent env filename ∧
    (∀ (later : Env) (sum nsum : Digest),
      (s.processFileEvent env filename).state.files filename = some sum →
      computeSum later filename = .ok nsum → sum ≠ nsum →
      (∀ t, filename = s.cfg.tokenFile → loadTokensFile later filename = .ok t →
        ((s.processFileEvent env filename).state.processFileEvent later filename).state.tokens =
            some t ∧
          ((s.processFileEvent env filename).state.processFileEvent later filename).state.files
            filename = some nsum) ∧
      (∀ t, filename ≠ s.cfg.tokenFile → filename = s.cfg.authFile →
        loadAuthorizationFile later filename = .ok t →
        ((s.processFileEvent env filename).state.processFileEvent later filename).state.authz =
            some t ∧
          ((s.processFileEvent env filename).state.processFileEvent later filename).state.files
            filename = some nsum)) := by
  obtain ⟨hstate, hdiff⟩ := processFileEvent_error_state env s filename e h
  rw [hstate]
  refine ⟨rfl, rfl, rfl, fun _ => rfl, hdiff, rfl, ?_⟩
  intro later sum nsum hs hc hne
  refine ⟨?_, ?_⟩
  · intro t hf hl
    rw [processFileEvent_tokenFile later s filename sum nsum hs hc hne hf, hl]
    simp
  · intro t hf hg hl
    rw [processFileEvent_authFile later s filename sum nsum hs hc hne hf hg, hl]
    simp

/-- C8 on the test service: an event for a token file that no longer parses
returns the error of the loader and leaves the table in place, so that
`token1` is still authenticated. -/
theorem processFileEvent_error_keeps_state_witness :
    (startedService.processFileEvent brokenEnv "/tmp/kube-auth.tokens").err =
        some "token file '/tmp/kube-auth.tokens' must have at least 3 columns" ∧
      (startedService.processFileEvent brokenEnv "/tmp/kube-auth.tokens").state =
        startedService ∧
      (startedService.processFileEvent brokenEnv "/tmp/kube-auth.tokens").state.files
        "/tmp/kube-auth.tokens" = some 0 :=
  ⟨by rfl,
   (processFileEvent_error_keeps_state brokenEnv startedService "/tmp/kube-auth.tokens"
      "token file '/tmp/kube-auth.tokens' must have at least 3 columns" (by rfl)).1,
   ((processFileEvent_error_keeps_state brokenEnv startedService "/tmp/kube-auth.tokens"
      "token file '/tmp/kube-auth.tokens' must have at least 3 columns"
      (by rfl)).2.2.2.1 "/tmp/kube-auth.tokens").trans rfl⟩

/-- Every loader call of `processFileEvent` follows a computed digest that
differs from the stored one. -/
theorem processFileEvent_loader_called (env : Env) (s : service) (filename : String)
    (h : (∃ path, Call.loadTokensFile path ∈ (s.processFileEvent env filename).calls) ∨
      (∃ path, Call.loadAuthorizationFile path ∈ (s.processFileEvent env filename).calls) ∨
      (s.processFileEvent env filename).state.tokens ≠ s.tokens ∨
      (s.processFileEvent env filename).state.authz ≠ s.authz) :
    ∃ sum nsum, s.files filename = some sum ∧ computeSum env filename = .ok nsum ∧
      sum ≠ nsum := by
  cases hs : s.files filename with
  | none =>
    rw [processFileEvent_untracked env s filename hs] at h
    simp at h
  | some sum =>
    cases hc : computeSum env filename with
    | error err =>
      rw [processFileEvent_unreadable env s filename sum err hs hc] at h
      simp at h
    | ok nsum =>
      by_cases hd : sum = nsum
      · subst hd
        rw [processFileEvent_same_digest env s filename sum hs hc] at h
        simp at h
      · exact ⟨sum, nsum, rfl, rfl, hd⟩

/-- C9. For a tracked path whose computed digest equals the stored one,
`processFileEvent` returns nil, calls `computeSum` and neither loader, and
leaves `tokens`, `authz` and all digests unchanged; a loader is called, and a
provider replaced, only when the computed digest differs from the stored
one. -/
theorem processFileEvent_equal_digest_noop (env : Env) (s : service) (filename : String) :
    (∀ sum, s.files filename = some sum → computeSum env filename = .ok sum →
      (s.processFileEvent env filename).err = none ∧
      (s.processFileEvent env filename).calls = [.computeSum filename] ∧
      (∀ path, Call.loadTokensFile path ∉ (s.processFileEvent env filename).calls) ∧
      (∀ path, Call.loadAuthorizationFile path ∉ (s.processFileEvent env filename).calls) ∧
      (s.processFileEvent env filename).state = s ∧
      (s.processFileEvent env filename).state.tokens = s.tokens ∧
      (s.processFileEvent env filename).state.authz = s.authz ∧
      (∀ path, (s.processFileEvent env filename).state.files path = s.files path)) ∧
    (((∃ path, Call.loadTokensFile path ∈ (s.processFileEvent env filename).calls) ∨
        (∃ path, Call.loadAuthorizationFile path ∈ (s.processFileEvent env filename).calls) ∨
        (s.processFileEvent env filename).state.tokens ≠ s.tokens ∨
        (s.processFileEvent env filename).state.authz ≠ s.authz) →
      ∃ sum nsum, s.files filename = some sum ∧ computeSum env filename = .ok nsum ∧
        sum ≠ nsum) := by
  refine ⟨?_, processFileEvent_loader_called env s filename⟩
  intro sum hs hc
  rw [processFileEvent_same_digest env s filename sum hs hc]
  simp

/-- C9 on the test service: once the digest of the token file is stored, an
event for the unchanged file reads it and calls no loader. -/
theorem processFileEvent_equal_digest_noop_witness :
    (reloadedService.processFileEvent testEnv "/tmp/kube-auth.tokens").calls =
        [.computeSum "/tmp/kube-auth.tokens"] ∧
      (reloadedService.processFileEvent testEnv "/tmp/kube-auth.tokens").err = none :=
  ⟨((processFileEvent_equal_digest_noop testEnv reloadedService "/tmp/kube-auth.tokens").1
      0xbe8f41a36f876c6b7c0320e16f02cf5c (by rfl) (by rfl)).2.1,
   ((processFileEvent_equal_digest_noop testEnv reloadedService "/tmp/kube-auth.tokens").1
      0xbe8f41a36f876c6b7c0320e16f02cf5c (by rfl) (by rfl)).1⟩

/-! ## Idempotent reload -/

/-- An event leaves the digest of every other path as it was. -/
theorem processFileEvent_files_other (env : Env) (s : service) (filename path : String)
    (h : path ≠ filename) :
    (s.processFileEvent env filename).state.files path = s.files path := by
  cases hs : s.files filename with
  | none => rw [processFileEvent_untracked env s filename hs]
  | some sum =>
    cases hc : computeSum env filename with
    | error err => rw [processFileEvent_unreadable env s filename sum err hs hc]
    | ok nsum =>
      by_cases hd : sum = nsum
      · subst hd
        rw [processFileEvent_same_digest env s filename sum hs hc]
      · by_cases hf : filename = s.cfg.tokenFile
        · rw [processFileEvent_tokenFile env s filename sum nsum hs hc hd hf]
          cases loadTokensFile env filename with
          | error err => rfl
          | ok t => simp [Function.update_noteq h]
        · by_cases hg : filename = s.cfg.authFile
          · rw [processFileEvent_authFile env s filename sum nsum hs hc hd hf hg]
            cases loadAuthorizationFile env filename with
            | error err => rfl
            | ok t => simp [Function.update_noteq h]
          · rw [processFileEvent_other env s filename sum nsum hs hc hf hg]

/-- After a reload by `processFileEvent` the stored digest of the file is the
digest of the content that was read. -/
theorem processFileEvent_reload_digest (env : Env) (s : service) (filename : String)
    (content : List UInt8) (hread : env.ReadFile filename = .ok content)
    (hload : (∃ path, Call.loadTokensFile path ∈ (s.processFileEvent env filename).calls) ∨
      ∃ path, Call.loadAuthorizationFile path ∈ (s.processFileEvent env filename).calls)
    (herr : (s.processFileEvent env filename).err = none) :
    (s.processFileEvent env filename).state.files filename = some (md5.Sum content) := by
  have hc : computeSum env filename = .ok (md5.Sum content) := by
    simp [computeSum, hread]
  cases hs : s.files filename with
  | none =>
    rw [processFileEvent_untracked env s filename hs] at hload
    simp at hload
  | some sum =>
    by_cases hd : sum = md5.Sum content
    · subst hd
      rw [processFileEvent_same_digest env s filename _ hs hc] at hload
      simp at hload
    · by_cases hf : filename = s.cfg.tokenFile
      · rw [processFileEvent_tokenFile env s filename sum _ hs hc hd hf] at herr ⊢
        cases hl : loadTokensFile env filename with
        | error err => simp [hl] at herr
        | ok t => simp
      · by_cases hg : filename = s.cfg.authFile
        · rw [processFileEvent_authFile env s filename sum _ hs hc hd hf hg] at herr ⊢
          cases hl : loadAuthorizationFile env filename with
          | error err => simp [hl] at herr
          | ok t => simp
        · rw [processFileEvent_other env s filename sum _ hs hc hf hg] at hload
          simp at hload

/-- While a file keeps its content, events keep the stored digest of that
content. -/
theorem processFileEvent_keeps_digest (env : Env) (s : service) (filename other : String)
    (content : List UInt8) (hread : env.ReadFile filename = .ok content)
    (hs : s.files filename = some (md5.Sum content)) :
    (s.processFileEvent env other).state.files filename = some (md5.Sum content) := by
  by_cases h : filename = other
  · subst h
    have hc : computeSum env filename = .ok (md5.Sum content) := by
      simp [computeSum, hread]
    rw [processFileEvent_same_digest env s filename _ hs hc]
    exact hs
  · rw [processFileEvent_files_other env s other filename h]
    exact hs

/-- The event routine keeps the stored digest of a file that keeps its
content. -/
theorem watch_keeps_digest (filename : String) (content : List UInt8)
    (later : List (Env × Event)) :
    ∀ s : service, (∀ x ∈ later, x.1.ReadFile filename = .ok content) →
      s.files filename = some (md5.Sum content) →
      (s.watch later).files filename = some (md5.Sum content) := by
  induction later with
  | nil => intro s _ hs; exact hs
  | cons x rest ih =>
    intro s hl hs
    obtain ⟨env, e⟩ := x
    have hrest : ∀ x ∈ rest, x.1.ReadFile filename = .ok content :=
      fun x hx => hl x (List.mem_cons_of_mem _ hx)
    have henv : env.ReadFile filename = .ok content := hl (env, e) (List.mem_cons_self _ _)
    unfold service.watch
    split
    · exact ih _ hrest (processFileEvent_keeps_digest env s filename e.Name content henv hs)
    · exact ih _ hrest hs

/-- An event that does not reload a file keeps its stored digest. -/
theorem processFileEvent_files_kept (env : Env) (s : service) (other filename : String)
    (hkeep : (Call.loadTokensFile filename ∉ (s.processFileEvent env other).calls ∧
        Call.loadAuthorizationFile filename ∉ (s.processFileEvent env other).calls) ∨
      (s.processFileEvent env other).err ≠ none) :
    (s.processFileEvent env other).state.files filename = s.files filename := by
  by_cases hx : filename = other
  · subst hx
    cases hs : s.files filename with
    | none => rw [processFileEvent_untracked env s filename hs, hs]
    | some sum =>
      cases hc : computeSum env filename with
      | error err => rw [processFileEvent_unreadable env s filename sum err hs hc, hs]
      | ok nsum =>
        by_cases hd : sum = nsum
        · subst hd
          rw [processFileEvent_same_digest env s filename sum hs hc, hs]
        · by_cases hf : filename = s.cfg.tokenFile
          · rw [processFileEvent_tokenFile env s filename sum nsum hs hc hd hf] at hkeep ⊢
            cases hl : loadTokensFile env filename with
            | error err => exact hs
            | ok t => simp [hl] at hkeep
          · by_cases hg : filename = s.cfg.authFile
            · rw [processFileEvent_authFile env s filename sum nsum hs hc hd hf hg] at hkeep ⊢
              cases hl : loadAuthorizationFile env filename with
              | error err => exact hs
              | ok t => simp [hl] at hkeep
            · rw [processFileEvent_other env s filename sum nsum hs hc hf hg, hs]
  · exact processFileEvent_files_other env s other filename hx

/-- In a state whose provider was loaded from `content`, the stored digest is
the digest of `content`. -/
theorem loadedFrom_digest (filename : String) (content : List UInt8) (s : service)
    (h : LoadedFrom filename content s) : s.files filename = some (md5.Sum content) := by
  induction h with
  | reload env s hread hcall herr =>
    refine processFileEvent_reload_digest env s filename content hread ?_ herr
    rcases hcall with hcall | hcall
    · exact Or.inl ⟨filename, hcall⟩
    · exact Or.inr ⟨filename, hcall⟩
  | later env other s _ hkeep ih =>
    rw [processFileEvent_files_kept env s other filename hkeep]
    exact ih

/-- C10, as the code has it. In every state in which a watched file has been
reloaded by an event, whatever events came since (for other files, for a broken
edit of this file, for unchanged content), an event for the file whose content
is byte-identical to the content its installed provider was loaded from calls
`computeSum` and neither loader, returns nil and leaves the state unchanged. -/
theorem reloaded_file_event_noop (filename : String) (content : List UInt8) (s : service)
    (env : Env) (h : LoadedFrom filename content s)
    (hread : env.ReadFile filename = .ok content) :
    (s.processFileEvent env filename).calls = [.computeSum filename] ∧
      (∀ path, Call.loadTokensFile path ∉ (s.processFileEvent env filename).calls) ∧
      (∀ path, Call.loadAuthorizationFile path ∉ (s.processFileEvent env filename).calls) ∧
      (s.processFileEvent env filename).err = none ∧
      (s.processFileEvent env filename).state = s := by
  have hc : computeSum env filename = .ok (md5.Sum content) := by
    simp [computeSum, hread]
  rw [processFileEvent_same_digest env s filename _ (loadedFrom_digest filename content s h) hc]
  simp

/-- C10 right after startup. `newService` in the test file system returns the
service with both providers loaded and the all-zero digest stored; the first
event for the token file, whose content is the one the provider was loaded
from, calls `loadTokensFile` and replaces the stored digest. -/
theorem startup_event_reloads_unchanged_file :
    (newService testEnv testOptions).service = some startedService ∧
      (newService testEnv testOptions).err = none ∧
      startedService.files "/tmp/kube-auth.tokens" = some 0 ∧
      testEnv.ReadFile "/tmp/kube-auth.tokens" = .ok defaultTestTokensContent ∧
      (startedService.processFileEvent testEnv "/tmp/kube-auth.tokens").calls =
        [.computeSum "/tmp/kube-auth.tokens", .loadTokensFile "/tmp/kube-auth.tokens"] ∧
      (startedService.processFileEvent testEnv "/tmp/kube-auth.tokens").err = none ∧
      (startedService.processFileEvent testEnv "/tmp/kube-auth.tokens").state.files
        "/tmp/kube-auth.tokens" = some 0xbe8f41a36f876c6b7c0320e16f02cf5c := by
  refine ⟨by rfl, by rfl, by rfl, by rfl, by decide, by rfl, by rfl⟩

/-- The amended C10 on the service the tests start: the first event reloads
the token file; the file is then overwritten with a line the loader rejects,
the policy file is reloaded, and the token file is put back: the event for the
restored file calls no loader. -/
theorem reloaded_file_event_noop_witness :
    ((((startedService.processFileEvent testEnv "/tmp/kube-auth.tokens").state.processFileEvent
        brokenEnv "/tmp/kube-auth.tokens").state.processFileEvent updatedPolicyEnv
        "/tmp/kube-auth.policy").state.processFileEvent testEnv
        "/tmp/kube-auth.tokens").calls = [.computeSum "/tmp/kube-auth.tokens"] :=
  (reloaded_file_event_noop "/tmp/kube-auth.tokens" defaultTestTokensContent _ testEnv
    (LoadedFrom.later updatedPolicyEnv "/tmp/kube-auth.policy" _
      (LoadedFrom.later brokenEnv "/tmp/kube-auth.tokens" _
        (LoadedFrom.reload testEnv startedService (by rfl) (Or.inl (by decide)) (by rfl))
        (Or.inr (by decide)))
      (Or.inl ⟨by decide, by decide⟩))
    (by rfl)).1

/-! ## Startup: `newService` and `createWatcher` -/

/-- The loop of `createWatcher` stores the all-zero digest for every non-empty
path it visits and touches no other key. -/
theorem createWatcher_loop_files (env : Env) (paths : List String) :
    ∀ w w₁ : Watching, service.createWatcher.loop env paths w = .ok w₁ →
      ∀ x, w₁.files x = if x ≠ "" ∧ x ∈ paths then some 0 else w.files x := by
  induction paths with
  | nil =>
    intro w w₁ h x
    simp only [service.createWatcher.loop, Except.ok.injEq] at h
    subst h
    simp
  | cons p rest ih =>
    intro w w₁ h x
    unfold service.createWatcher.loop at h
    by_cases hp : p = ""
    · simp only [hp, if_true] at h
      rw [ih w w₁ h x]
      by_cases hx : x = ""
      · simp [hx]
      · have : x ≠ p := by rw [hp]; exact hx
        simp [hx, hp]
    · simp only [hp, if_false] at h
      have key : ∀ w₂ : Watching, w₂.files = Function.update w.files p (some 0) →
          service.createWatcher.loop env rest w₂ = .ok w₁ →
          w₁.files x = if x ≠ "" ∧ x ∈ p :: rest then some 0 else w.files x := by
        intro w₂ hf h₂
        rw [ih w₂ w₁ h₂ x, hf]
        by_cases hx : x = p
        · subst hx
          simp [hp]
        · by_cases hr : x ≠ "" ∧ x ∈ rest
          · simp [hr.1, hr.2]
          · have hr₂ : ¬(x ≠ "" ∧ x ∈ p :: rest) := by
              intro hc
              rcases List.mem_cons.mp hc.2 with h1 | h1
              · exact hx h1
              · exact hr ⟨hc.1, h1⟩
            rw [if_neg hr, if_neg hr₂, Function.update_noteq hx]
      split at h
      · exact key _ rfl h
      · split at h
        · cases h
        · exact key _ rfl h

/-- A successful `createWatcher` keeps the configuration and the providers and
stores the all-zero digest for the non-empty configured paths. -/
theorem createWatcher_ok (env : Env) (s s₁ : service) (watched : List String)
    (h : s.createWatcher env = .ok (s₁, watched)) :
    s₁.cfg = s.cfg ∧ s₁.tokens = s.tokens ∧ s₁.authz = s.authz ∧
      ∀ x, s₁.files x =
        if x ≠ "" ∧ (x = s.cfg.tokenFile ∨ x = s.cfg.authFile) then some 0 else s.files x := by
  unfold service.createWatcher at h
  split at h
  · cases h
  · split at h
    · cases h
    · rename_i w hw
      simp only [Except.ok.injEq, Prod.mk.injEq] at h
      obtain ⟨h1, _⟩ := h
      subst h1
      refine ⟨rfl, rfl, rfl, ?_⟩
      intro x
      have := createWatcher_loop_files env _ _ _ hw x
      simpa using this

/-- What `newService` has done when it returns a service. -/
theorem newService_some (env : Env) (o : options) (s : service)
    (h : (newService env o).service = some s) :
    (newService env o).err = none ∧ o.isValid = none ∧
      s.cfg = o ∧
      (∀ x, s.files x = if x ≠ "" ∧ (x = o.tokenFile ∨ x = o.authFile) then some 0 else none) ∧
      (∃ t, loadTokensFile env o.tokenFile = .ok t ∧ s.tokens = some t) ∧
      (o.authFile ≠ "" → ∃ a, loadAuthorizationFile env o.authFile = .ok a ∧ s.authz = some a) ∧
      (o.authFile = "" → s.authz = none ∧
        (newService env o).calls = [.loadTokensFile o.tokenFile]) := by
  unfold newService at h ⊢
  cases hv : o.isValid with
  | some e => simp [hv] at h
  | none =>
    simp only [hv] at h ⊢
    cases hw : service.createWatcher env { cfg := o, files := fun _ => none } with
    | error e => simp [hw] at h
    | ok r =>
      obtain ⟨s₁, watched⟩ := r
      obtain ⟨hcfg, htok, hauthz, hfiles⟩ := createWatcher_ok env _ s₁ watched hw
      simp only at hcfg htok hauthz hfiles
      simp only [hw, hcfg] at h ⊢
      cases ht : loadTokensFile env o.tokenFile with
      | error e => simp [ht] at h
      | ok t =>
        simp only [ht] at h ⊢
        by_cases ha : o.authFile = ""
        · simp only [ha, ne_eq, not_true_eq_false, if_false, Option.some.injEq] at h ⊢
          subst h
          refine ⟨trivial, trivial, rfl, ?_, ⟨t, rfl, rfl⟩, fun hc => hc.elim, fun _ => ?_⟩
          · intro x; rw [hfiles x, ha]
          · exact ⟨hauthz, trivial⟩
        · simp only [ha, ne_eq, not_false_eq_true, if_true] at h ⊢
          cases hl : loadAuthorizationFile env o.authFile with
          | error e => simp [hl] at h
          | ok a =>
            simp only [hl, Option.some.injEq] at h ⊢
            subst h
            refine ⟨trivial, trivial, rfl, hfiles, ⟨t, rfl, rfl⟩, fun _ => ⟨a, rfl, rfl⟩,
              fun hc => hc.elim⟩

/-- The function `newService` returns either an error and no service, or a
service and no error. -/
theorem newService_error_or_service (env : Env) (o : options) :
    ((newService env o).service = none ∧ ∃ e, (newService env o).err = some e) ∨
      ((newService env o).err = none ∧ ∃ s, (newService env o).service = some s) := by
  unfold newService
  cases o.isValid with
  | some e => exact Or.inl ⟨rfl, e, rfl⟩
  | none =>
    simp only
    cases service.createWatcher env { cfg := o, files := fun _ => none } with
    | error e => exact Or.inl ⟨rfl, e, rfl⟩
    | ok r =>
      obtain ⟨s₁, watched⟩ := r
      simp only
      cases loadTokensFile env s₁.cfg.tokenFile with
      | error e => exact Or.inl ⟨rfl, e, rfl⟩
      | ok t =>
        simp only
        split
        · cases loadAuthorizationFile env s₁.cfg.authFile with
          | error e => exact Or.inl ⟨rfl, e, rfl⟩
          | ok a => exact Or.inr ⟨rfl, _, rfl⟩
        · exact Or.inr ⟨rfl, _, rfl⟩

/-- An event keeps the configuration. -/
theorem processFileEvent_cfg (env : Env) (s : service) (filename : String) :
    (s.processFileEvent env filename).state.cfg = s.cfg := by
  cases hs : s.files filename with
  | none => rw [processFileEvent_untracked env s filename hs]
  | some sum =>
    cases hc : computeSum env filename with
    | error err => rw [processFileEvent_unreadable env s filename sum err hs hc]
    | ok nsum =>
      by_cases hd : sum = nsum
      · subst hd
        rw [processFileEvent_same_digest env s filename sum hs hc]
      · by_cases hf : filename = s.cfg.tokenFile
        · rw [processFileEvent_tokenFile env s filename sum nsum hs hc hd hf]
          cases loadTokensFile env filename <;> rfl
        · by_cases hg : filename = s.cfg.authFile
          · rw [processFileEvent_authFile env s filename sum nsum hs hc hd hf hg]
            cases loadAuthorizationFile env filename <;> rfl
          · rw [processFileEvent_other env s filename sum nsum hs hc hf hg]

/-- An event neither adds nor removes a key of the digest map. -/
theorem processFileEvent_keys (env : Env) (s : service) (filename x : String) :
    ((s.processFileEvent env filename).state.files x).isSome = (s.files x).isSome := by
  by_cases hx : x = filename
  · subst hx
    cases hs : s.files x with
    | none => rw [processFileEvent_untracked env s x hs, hs]
    | some sum =>
      cases hc : computeSum env x with
      | error err => rw [processFileEvent_unreadable env s x sum err hs hc, hs]
      | ok nsum =>
        by_cases hd : sum = nsum
        · subst hd
          rw [processFileEvent_same_digest env s x sum hs hc, hs]
        · by_cases hf : x = s.cfg.tokenFile
          · rw [processFileEvent_tokenFile env s x sum nsum hs hc hd hf]
            cases loadTokensFile env x with
            | error err => simp [hs]
            | ok t => simp
          · by_cases hg : x = s.cfg.authFile
            · rw [processFileEvent_authFile env s x sum nsum hs hc hd hf hg]
              cases loadAuthorizationFile env x with
              | error err => simp [hs]
              | ok t => simp
            · rw [processFileEvent_other env s x sum nsum hs hc hf hg, hs]
  · rw [processFileEvent_files_other env s filename x hx]

/-- In every reachable state the configuration is the one given to
`newService` and the keys of the digest map are the non-empty configured
paths. -/
theorem reachable_keys (o : options) (s : service) (h : Reachable o s) :
    s.cfg = o ∧
      ∀ x, (s.files x).isSome = true ↔ x ≠ "" ∧ (x = o.tokenFile ∨ x = o.authFile) := by
  induction h with
  | start env s h =>
    obtain ⟨_, _, hcfg, hfiles, _⟩ := newService_some env o s h
    refine ⟨hcfg, fun x => ?_⟩
    rw [hfiles x]
    by_cases hx : x ≠ "" ∧ (x = o.tokenFile ∨ x = o.authFile)
    · simp [hx]
    · simp only [if_neg hx, Option.isSome_none, Bool.false_eq_true, false_iff]
      exact hx
  | event env filename s _ ih =>
    refine ⟨(processFileEvent_cfg env s filename).trans ih.1, fun x => ?_⟩
    rw [processFileEvent_keys env s filename x]
    exact ih.2 x

/-- A reload of the policy file installs the provider the loader returned. -/
theorem processFileEvent_authz_reloaded (env : Env) (s : service) (filename : String)
    (t : authorization)
    (hcall : Call.loadAuthorizationFile filename ∈ (s.processFileEvent env filename).calls)
    (hl : loadAuthorizationFile env filename = .ok t) :
    (s.processFileEvent env filename).err = none ∧
      (s.processFileEvent env filename).state.authz = some t ∧
      (s.processFileEvent env filename).state.tokens = s.tokens := by
  cases hs : s.files filename with
  | none =>
    rw [processFileEvent_untracked env s filename hs] at hcall
    simp at hcall
  | some sum =>
    cases hc : computeSum env filename with
    | error err =>
      rw [processFileEvent_unreadable env s filename sum err hs hc] at hcall
      simp at hcall
    | ok nsum =>
      by_cases hd : sum = nsum
      · subst hd
        rw [processFileEvent_same_digest env s filename sum hs hc] at hcall
        simp at hcall
      · by_cases hf : filename = s.cfg.tokenFile
        · rw [processFileEvent_tokenFile env s filename sum nsum hs hc hd hf] at hcall
          cases hl₂ : loadTokensFile env filename <;> simp [hl₂] at hcall
        · by_cases hg : filename = s.cfg.authFile
          · rw [processFileEvent_authFile env s filename sum nsum hs hc hd hf hg, hl]
            exact ⟨rfl, rfl, rfl⟩
          · rw [processFileEvent_other env s filename sum nsum hs hc hf hg] at hcall
            simp at hcall

/-! ## Hot update -/

/-- C11. After `processFileEvent` reloads the token file, `authentication`
answers as any service holding the new provider does, whatever the previous
provider was: a token the new provider knows is reported authenticated with its
uid, name and groups, a token it does not know is reported `token not found`.
Likewise after a reload of the policy file `authorize` answers from the new
provider. -/
theorem reload_answers_from_new_provider (env : Env) (s : service) (filename : String) :
    (∀ sum nsum t, filename = s.cfg.tokenFile → s.files filename = some sum →
      computeSum env filename = .ok nsum → sum ≠ nsum → loadTokensFile env filename = .ok t →
      (s.processFileEvent env filename).err = none ∧
      ∀ review,
        (∀ s₁ : service, s₁.tokens = some t →
          (s.processFileEvent env filename).state.authentication review =
            s₁.authentication review) ∧
        (∀ user, t.AuthenticateToken review.Spec.Token = (some user, true, none) →
          (s.processFileEvent env filename).state.authentication review =
            .returned
              { TypeMeta :=
                  { APIVersion := "authentication.k8s.io/v1beta1", Kind := "TokenReview" }
                Status :=
                  { Authenticated := true
                    User :=
                      { UID := user.UID, Username := user.Name, Groups := user.Groups } } }
              none) ∧
        (∀ user, t.AuthenticateToken review.Spec.Token = (user, false, none) →
          (s.processFileEvent env filename).state.authentication review =
            .returned
              { TypeMeta :=
                  { APIVersion := "authentication.k8s.io/v1beta1", Kind := "TokenReview" }
                Status := { Authenticated := false, Error := "token not found" } }
              none)) ∧
    (∀ t, Call.loadAuthorizationFile filename ∈ (s.processFileEvent env filename).calls →
      loadAuthorizationFile env filename = .ok t →
      (s.processFileEvent env filename).err = none ∧
      ∀ review,
        (∀ s₁ : service, s₁.authz = some t →
          (s.processFileEvent env filename).state.authorize review = s₁.authorize review) ∧
        (∀ reason, t.Authorize (service.authorizeRequest review) = (true, reason, none) →
          (s.processFileEvent env filename).state.authorize review =
            .returned
              { TypeMeta :=
                  { Kind := "SubjectAccessReview"
                    APIVersion := "authorization.k8s.io/v1beta1" }
                Status := { Allowed := true } }
              none) ∧
        (∀ reason, t.Authorize (service.authorizeRequest review) = (false, reason, none) →
          (s.processFileEvent env filename).state.authorize review =
            .returned
              { TypeMeta :=
                  { Kind := "SubjectAccessReview"
                    APIVersion := "authorization.k8s.io/v1beta1" }
                Status := { Allowed := false, Reason := reason } }
              none)) := by
  refine ⟨?_, ?_⟩
  · intro sum nsum t hf hs hc hd hl
    rw [processFileEvent_tokenFile env s filename sum nsum hs hc hd hf, hl]
    refine ⟨rfl, fun review => ⟨?_, ?_, ?_⟩⟩
    · intro s₁ h₁
      simp [service.authentication, h₁]
    · intro user hp
      simp [service.authentication, hp]
    · intro user hp
      simp [service.authentication, hp]
  · intro t hcall hl
    obtain ⟨herr, hauthz, _⟩ := processFileEvent_authz_reloaded env s filename t hcall hl
    refine ⟨herr, fun review => ⟨?_, ?_, ?_⟩⟩
    · intro s₁ h₁
      simp [service.authorize, h₁, hauthz]
    · intro reason hp
      simp [service.authorize, hauthz, hp]
    · intro reason hp
      simp [service.authorize, hauthz, hp]

/-- C11 on the file changes of the tests: `token5` is not found before the
token file is reloaded and is authenticated with its two groups after; the
user `admin_user` is denied before the policy file is reloaded and allowed
after. -/
theorem reload_answers_from_new_provider_witness :
    startedService.authentication { Spec := { Token := "token5" } } =
        .returned
          { TypeMeta := { APIVersion := "authentication.k8s.io/v1beta1", Kind := "TokenReview" }
            Status := { Authenticated := false, Error := "token not found" } }
          none ∧
      (startedService.processFileEvent updatedEnv "/tmp/kube-auth.tokens").state.authentication
          { Spec := { Token := "token5" } } =
        .returned
          { TypeMeta := { APIVersion := "authentication.k8s.io/v1beta1", Kind := "TokenReview" }
            Status :=
              { Authenticated := true
                User :=
                  { UID := "uuid5", Username := "user5", Groups := ["group1", "group2"] } } }
          none ∧
      startedService.authorize
          { Spec :=
              { User := "admin_user"
                ResourceAttributes :=
                  some { Resource := "pods", Namespace := "default", Verb := "get" } } } =
        .returned
          { TypeMeta :=
              { Kind := "SubjectAccessReview", APIVersion := "authorization.k8s.io/v1beta1" }
            Status := { Allowed := false, Reason := "No policy matched." } }
          none ∧
      (startedService.processFileEvent updatedPolicyEnv "/tmp/kube-auth.policy").state.authorize
          { Spec :=
              { User := "admin_user"
                ResourceAttributes :=
                  some { Resource := "pods", Namespace := "default", Verb := "get" } } } =
        .returned
          { TypeMeta :=
              { Kind := "SubjectAccessReview", APIVersion := "authorization.k8s.io/v1beta1" }
            Status := { Allowed := true } }
          none :=
  ⟨by decide,
   (((reload_answers_from_new_provider updatedEnv startedService "/tmp/kube-auth.tokens").1 0
      0xb5a05cab07359f3424d24a3e7ad57650
      (tokenTable (defaultTestTokens ++
        [("token5", { Name := "user5", UID := "uuid5", Groups := ["group1", "group2"] })]))
      (by rfl) (by rfl) (by rfl) (by decide) (by rfl)).2
      { Spec := { Token := "token5" } }).2.1
      { Name := "user5", UID := "uuid5", Groups := ["group1", "group2"] } (by decide),
   by decide,
   (((reload_answers_from_new_provider updatedPolicyEnv startedService
      "/tmp/kube-auth.policy").2 (allowUser "admin_user") (by decide) (by rfl)).2
      { Spec :=
          { User := "admin_user"
            ResourceAttributes :=
              some { Resource := "pods", Namespace := "default", Verb := "get" } } }).2.1
      "" (by decide)⟩

/-- C12. In every reachable state an event whose file name is neither the
token file nor the policy file returns nil, makes no call (the file is not
read) and leaves the state, so `tokens`, `authz` and every digest,
unchanged. -/
theorem processFileEvent_unrelated_file (o : options) (s : service) (env : Env)
    (filename : String) (h : Reachable o s) (htoken : filename ≠ o.tokenFile)
    (hauth : filename ≠ o.authFile) :
    (s.processFileEvent env filename).err = none ∧
      (s.processFileEvent env filename).calls = [] ∧
      (s.processFileEvent env filename).state = s ∧
      (s.processFileEvent env filename).state.tokens = s.tokens ∧
      (s.processFileEvent env filename).state.authz = s.authz ∧
      ∀ path, (s.processFileEvent env filename).state.files path = s.files path := by
  have hnone : s.files filename = none := by
    cases hs : s.files filename with
    | none => rfl
    | some sum =>
      have hk := ((reachable_keys o s h).2 filename).mp (by simp [hs])
      rcases hk.2 with h1 | h1
      · exact absurd h1 htoken
      · exact absurd h1 hauth
  rw [processFileEvent_untracked env s filename hnone]
  exact ⟨rfl, rfl, rfl, rfl, rfl, fun _ => rfl⟩

/-- C12 on the service the tests start: an event for another file of `/tmp`
makes no call. -/
theorem processFileEvent_unrelated_file_witness :
    (startedService.processFileEvent testEnv "/tmp/kube-auth.other").calls = [] ∧
      (startedService.processFileEvent testEnv "/tmp/kube-auth.other").err = none :=
  ⟨(processFileEvent_unrelated_file testOptions startedService testEnv "/tmp/kube-auth.other"
      (Reachable.start testEnv startedService (by rfl)) (by decide) (by decide)).2.1,
   (processFileEvent_unrelated_file testOptions startedService testEnv "/tmp/kube-auth.other"
      (Reachable.start testEnv startedService (by rfl)) (by decide) (by decide)).1⟩

/-! ## Startup results -/

/-- C14. `newService` returns an error and no service when the options are
invalid, when the token file fails to load and when a configured policy file
fails to load. When it returns a service it returns no error, the options are
valid, `tokens` is the provider loaded from the token file, and `authz` is the
provider loaded from the policy file, or no provider, with no call of the policy
loader, when the policy path is empty. -/
theorem newService_result (env : Env) (o : options) :
    (∀ e, o.isValid = some e →
      (newService env o).service = none ∧ (newService env o).err = some e) ∧
    (∀ e, loadTokensFile env o.tokenFile = .error e →
      (newService env o).service = none ∧ ∃ e₁, (newService env o).err = some e₁) ∧
    (∀ e, o.authFile ≠ "" → loadAuthorizationFile env o.authFile = .error e →
      (newService env o).service = none ∧ ∃ e₁, (newService env o).err = some e₁) ∧
    (∀ s, (newService env o).service = some s →
      (newService env o).err = none ∧ o.isValid = none ∧
      (∃ t, loadTokensFile env o.tokenFile = .ok t ∧ s.tokens = some t) ∧
      (o.authFile ≠ "" → ∃ a, loadAuthorizationFile env o.authFile = .ok a ∧ s.authz = some a) ∧
      (o.authFile = "" → s.authz = none ∧
        ∀ path, Call.loadAuthorizationFile path ∉ (newService env o).calls)) := by
  have hnone : (¬∃ s, (newService env o).service = some s) →
      (newService env o).service = none ∧ ∃ e₁, (newService env o).err = some e₁ := by
    intro hno
    rcases newService_error_or_service env o with h | ⟨_, s, hs⟩
    · exact h
    · exact absurd ⟨s, hs⟩ hno
  refine ⟨?_, ?_, ?_, ?_⟩
  · intro e he
    simp [newService, he]
  · intro e he
    apply hnone
    rintro ⟨s, hs⟩
    obtain ⟨_, _, _, _, ⟨t, ht, _⟩, _⟩ := newService_some env o s hs
    rw [he] at ht
    cases ht
  · intro e ha he
    apply hnone
    rintro ⟨s, hs⟩
    obtain ⟨_, _, _, _, _, hauthz, _⟩ := newService_some env o s hs
    obtain ⟨a, hl, _⟩ := hauthz ha
    rw [he] at hl
    cases hl
  · intro s hs
    obtain ⟨herr, hvalid, _, _, htokens, hauthz, hempty⟩ := newService_some env o s hs
    refine ⟨herr, hvalid, htokens, hauthz, fun ha => ⟨(hempty ha).1, fun path => ?_⟩⟩
    rw [(hempty ha).2]
    simp

/-- C14 on the test file system: options without a listen address, a token
file that does not exist, the options of the tests, and the same options
without a policy file. -/
theorem newService_result_witness :
    ((newService testEnv {}).service.isNone = true ∧
        (newService testEnv {}).err = some "no listen") ∧
      (newService testEnv { testOptions with tokenFile := "should_not_exist_file" }).service.isNone
        = true ∧
      ((newService testEnv testOptions).err = none ∧
        (newService testEnv testOptions).calls =
          [.loadTokensFile "/tmp/kube-auth.tokens",
            .loadAuthorizationFile "/tmp/kube-auth.policy"]) ∧
      (newService testEnv tokensOnlyOptions).calls = [.loadTokensFile "/tmp/kube-auth.tokens"] :=
  ⟨⟨by rw [((newService_result testEnv {}).1 "no listen" (by rfl)).1]; rfl,
      ((newService_result testEnv {}).1 "no listen" (by rfl)).2⟩,
   by rw [((newService_result testEnv
      { testOptions with tokenFile := "should_not_exist_file" }).2.1
      "no such file or directory" (by rfl)).1]; rfl,
   ⟨((newService_result testEnv testOptions).2.2.2 startedService (by rfl)).1, by rfl⟩,
   by rfl⟩

/-- C15. With the token file `/etc/kube/tokens.csv` and the policy path
`/etc/kube`, `createWatcher` returns without error after registering
`/etc/kube` alone: the look-up `watching[x]` finds the policy path among the
directories and skips it, so its directory `/etc` is never registered. -/
theorem createWatcher_skips_directory :
    path.Dir nestedOptions.tokenFile = "/etc/kube" ∧
      path.Dir nestedOptions.authFile = "/etc" ∧
      nestedOptions.isValid = none ∧
      ((({ cfg := nestedOptions } : service).createWatcher watchableEnv).toOption.map
        fun r => r.2) = some ["/etc/kube"] ∧
      "/etc" ∉ ["/etc/kube"] := by
  refine ⟨by decide, by decide, by decide, by rfl, by decide⟩

/-- C16. `createWatcher` stores the all-zero digest for each non-empty
configured path and touches no other key; `processFileEvent` neither adds nor
removes a key, whatever the file name; so in every state reachable from
`newService` the keys of `files` are exactly the non-empty configured paths. -/
theorem files_keys_invariant (o : options) :
    (∀ (env : Env) (s s₁ : service) (watched : List String),
      s.createWatcher env = .ok (s₁, watched) →
      ∀ x, s₁.files x =
        if x ≠ "" ∧ (x = s.cfg.tokenFile ∨ x = s.cfg.authFile) then some 0 else s.files x) ∧
    (∀ (env : Env) (s : service), (newService env o).service = some s →
      ∀ x, s.files x = if x ≠ "" ∧ (x = o.tokenFile ∨ x = o.authFile) then some 0 else none) ∧
    (∀ (env : Env) (s : service) (filename x : String),
      ((s.processFileEvent env filename).state.files x).isSome = (s.files x).isSome) ∧
    (∀ s, Reachable o s →
      ∀ x, (s.files x).isSome = true ↔ x ≠ "" ∧ (x = o.tokenFile ∨ x = o.authFile)) := by
  refine ⟨?_, ?_, ?_, ?_⟩
  · intro env s s₁ watched h
    exact (createWatcher_ok env s s₁ watched h).2.2.2
  · intro env s h
    exact (newService_some env o s h).2.2.2.1
  · intro env s filename x
    exact processFileEvent_keys env s filename x
  · intro s h
    exact (reachable_keys o s h).2

/-- C16 on the test service after the token file was updated and an event for
an unrelated file arrived: both configured paths are keys, the unrelated file
is not. -/
theorem files_keys_invariant_witness :
    ((((startedService.processFileEvent updatedEnv "/tmp/kube-auth.tokens").state.processFileEvent
        testEnv "/tmp/kube-auth.other").state.files "/tmp/kube-auth.tokens").isSome = true ↔
        "/tmp/kube-auth.tokens" ≠ "" ∧
          ("/tmp/kube-auth.tokens" = testOptions.tokenFile ∨
            "/tmp/kube-auth.tokens" = testOptions.authFile)) ∧
      ((((startedService.processFileEvent updatedEnv
        "/tmp/kube-auth.tokens").state.processFileEvent testEnv
        "/tmp/kube-auth.other").state.files "/tmp/kube-auth.other").isSome = true ↔
        "/tmp/kube-auth.other" ≠ "" ∧
          ("/tmp/kube-auth.other" = testOptions.tokenFile ∨
            "/tmp/kube-auth.other" = testOptions.authFile)) :=
  ⟨(files_keys_invariant testOptions).2.2.2 _
      (Reachable.event testEnv "/tmp/kube-auth.other" _
        (Reachable.event updatedEnv "/tmp/kube-auth.tokens" _
          (Reachable.start testEnv startedService (by rfl)))) "/tmp/kube-auth.tokens",
   (files_keys_invariant testOptions).2.2.2 _
      (Reachable.event testEnv "/tmp/kube-auth.other" _
        (Reachable.event updatedEnv "/tmp/kube-auth.tokens" _
          (Reachable.start testEnv startedService (by rfl)))) "/tmp/kube-auth.other"⟩

/-! ## Missing providers -/

/-- C17 without a policy file. `newService` returns a service for the options
of the tests without a policy file; it holds a token provider and no
authorization provider, and `authorize` panics on the first access review of
`TestAuthorization`. -/
theorem authorize_without_policy_panics :
    tokensOnlyOptions.isValid = none ∧
      (newService testEnv tokensOnlyOptions).err = none ∧
      ((newService testEnv tokensOnlyOptions).service.map fun s => s.tokens.isSome) =
        some true ∧
      ((newService testEnv tokensOnlyOptions).service.map fun s => s.authz.isSome) =
        some false ∧
      ((newService testEnv tokensOnlyOptions).service.map fun s =>
        s.authorize
          { Spec := { NonResourceAttributes := some { Path := "/v1/api", Verb := "get" } } }) =
        some .panicked ∧
      ((newService testEnv tokensOnlyOptions).service.map fun s =>
        s.authorizeHandler testBinding { kind := "policy", body := "admin" }) =
        some .panicked := by
  refine ⟨by decide, by rfl, by rfl, by rfl, by rfl, by rfl⟩

/-- C17, as the code has it. A service returned by `newService` holds a token
provider, and `authentication` returns a response or the provider error whenever
the provider hands back an identity with the tokens it finds; it holds an
authorization provider exactly when a policy file is configured, and then
`authorize` returns a response or the provider error. -/
theorem newService_providers_installed (env : Env) (o : options) (s : service)
    (h : (newService env o).service = some s) :
    (∃ tokens, s.tokens = some tokens ∧
      ∀ review,
        (∀ err, tokens.AuthenticateToken review.Spec.Token ≠ (none, true, err)) →
        ∃ response err, s.authentication review = .returned response err) ∧
    (o.authFile ≠ "" →
      ∃ authz, s.authz = some authz ∧
        ∀ review, ∃ response err, s.authorize review = .returned response err) ∧
    (o.authFile = "" → s.authz = none) := by
  obtain ⟨_, _, _, _, ⟨t, _, ht⟩, hauthz, hempty⟩ := newService_some env o s h
  refine ⟨⟨t, ht, ?_⟩, ?_, fun ha => (hempty ha).1⟩
  · intro review hid
    simp only [service.authentication, ht]
    rcases hp : t.AuthenticateToken review.Spec.Token with ⟨user, found, err⟩
    cases err with
    | some e => simp
    | none =>
      cases found with
      | false => simp
      | true =>
        cases user with
        | none => exact absurd hp (hid none)
        | some u => simp
  · intro ha
    obtain ⟨a, _, hs⟩ := hauthz ha
    refine ⟨a, hs, ?_⟩
    intro review
    simp only [service.authorize, hs]
    rcases a.Authorize (service.authorizeRequest review) with ⟨allowed, reason, err⟩
    cases err with
    | some e => simp
    | none =>
      cases allowed with
      | false => simp
      | true => simp

/-- The amended C17 on the service of the tests: both providers are installed
and both calls return. -/
theorem newService_providers_installed_witness :
    (∃ tokens, startedService.tokens = some tokens ∧
      ∀ review,
        (∀ err, tokens.AuthenticateToken review.Spec.Token ≠ (none, true, err)) →
        ∃ response err, startedService.authentication review = .returned response err) ∧
      (testOptions.authFile ≠ "" →
        ∃ authz, startedService.authz = some authz ∧
          ∀ review, ∃ response err, startedService.authorize review = .returned response err) ∧
      (testOptions.authFile = "" → startedService.authz = none) :=
  newService_providers_installed testEnv testOptions startedService (by rfl)

end KubeAuth
